import Mathlib

/-!
Verification development for the RuleForge MCP repository.

The Python sources (src/core/project_analyzer.py, src/core/rule_generator.py,
src/core/utils.py, src/mcp_tools.py) are shallowly embedded below.  Pure string
processing is translated function by function; filesystem reads, XML/JSON
parsing and subprocess execution appear as fields of an explicit environment
record (`FS`, `PyEnv`), so every embedded operation is a total computable
function of that environment.  Python dictionaries are insertion-ordered
association lists, Python truthiness is modelled by `vtruthy`, and each
`re.search` call of the source is realised by a dedicated scanner over the
character list which reproduces the leftmost-match semantics of the concrete
pattern used at that call site.
-/

set_option maxRecDepth 4000

namespace RuleForge

/-- Values stored in a probe's attribute dictionary (the Python dict values
that actually occur in the source: None, bool, str, int, list of str). -/
inductive Val where
  | vNone : Val
  | vB : Bool → Val
  | vS : String → Val
  | vN : Int → Val
  | vL : List String → Val
deriving DecidableEq, Repr

/-- A Python dict with string keys, as an insertion-ordered association list
(no duplicate keys arise: `dset` replaces in place, as dict assignment does). -/
abbrev Attrs := List (String × Val)

/-- Dict lookup: `d.get(k)` / `d[k]` read access. -/
def dget (d : Attrs) (k : String) : Option Val :=
  match d.find? (fun p => p.1 == k) with
  | some p => some p.2
  | none => none

/-- Dict assignment `d[k] = v`: replaces the value in place if the key exists,
otherwise appends (Python dicts preserve insertion order). -/
def dset (d : Attrs) (k : String) (v : Val) : Attrs :=
  if d.any (fun p => p.1 == k) then
    d.map (fun p => if p.1 == k then (k, v) else p)
  else d ++ [(k, v)]

/-- Dict merge `d.update(e)`. -/
def dupdate (d e : Attrs) : Attrs :=
  e.foldl (fun acc p => dset acc p.1 p.2) d

/-- Python truthiness of a stored value. -/
def vtruthy : Val → Bool
  | .vNone => false
  | .vB b => b
  | .vS s => !s.isEmpty
  | .vN n => n != 0
  | .vL l => !l.isEmpty

/-- Truthiness of `d.get(k)` (missing key is `None`, hence falsy). -/
def dtruthy (d : Attrs) (k : String) : Bool :=
  match dget d k with
  | some v => vtruthy v
  | none => false

/-- `d.get(k, default)` where the call sites expect an int default. -/
def dgetInt (d : Attrs) (k : String) (dflt : Int) : Int :=
  match dget d k with
  | some (.vN n) => n
  | some _ => dflt
  | none => dflt

/-- `d.get(k, default)` where the call sites expect a list default. -/
def dgetList (d : Attrs) (k : String) : List String :=
  match dget d k with
  | some (.vL l) => l
  | _ => []

/-- Rendering of a value inside an f-string, as Python `str()` renders the
values that reach the source's interpolation sites (str, int, bool, None). -/
def pyStr : Val → String
  | .vNone => "None"
  | .vB true => "True"
  | .vB false => "False"
  | .vS s => s
  | .vN n => toString n
  | .vL l => String.intercalate ", " l

/-- `os.path.join a b` on the POSIX separator used throughout the model. -/
def pyJoin (a b : String) : String := a ++ "/" ++ b

/-- Join a walk entry's path components below the project root, as `os.walk`
reports the directory of an entry. -/
def joinComponents (root : String) : List String → String
  | [] => root
  | c :: rest => joinComponents (pyJoin root c) rest

/-- The whitespace class of Python's `\s` and `str.strip`. -/
def isPySpace (c : Char) : Bool :=
  c == ' ' || c == '\t' || c == '\n' || c == '\x0d' || c == '\x0b' || c == '\x0c'

/-- Decimal value of an all-digit character run (the `int()` of a regex
digit group); a hand-rolled fold so the kernel can evaluate it on literals. -/
def digitsToNat (l : List Char) : Nat := l.foldl (fun n c => n * 10 + (c.toNat - 48)) 0

/-- `str.strip()`. -/
def pyStrip (s : String) : String :=
  String.mk (((s.toList.dropWhile isPySpace).reverse.dropWhile isPySpace).reverse)

/-- Python `s.split(sep)` for a one-character separator, over the character
list (every split in the source uses a one-character separator). -/
def splitOnChar (sep : Char) : List Char → List (List Char)
  | [] => [[]]
  | c :: rest =>
    let r := splitOnChar sep rest
    if c == sep then [] :: r
    else
      match r with
      | h :: t => (c :: h) :: t
      | [] => [[c]]

/-- Python `s.split(sep)` returning strings. -/
def pySplit (s : String) (sep : Char) : List String :=
  (splitOnChar sep s.toList).map String.mk

/-- Exact list prefix test used by the substring scanner. -/
def listStarts : List Char → List Char → Bool
  | [], _ => true
  | _ :: _, [] => false
  | a :: as, b :: bs => a == b && listStarts as bs

/-- Substring occurrence over character lists. -/
def listHas (needle : List Char) : List Char → Bool
  | [] => needle.isEmpty
  | l@(_ :: rest) => listStarts needle l || listHas needle rest

/-- Python's `needle in hay` on strings (substring containment). -/
def pyIn (needle hay : String) : Bool := listHas needle.toList hay.toList

/-- Python `s.startswith(pre)`. -/
def pyStartsWith (s pre : String) : Bool := listStarts pre.toList s.toList

/-- Python `s.endswith(suf)`. -/
def pyEndsWith (s suf : String) : Bool :=
  listStarts suf.toList.reverse s.toList.reverse

/-- Python `s.lower()` (ASCII model, matching the letters that occur in the
scanned manifests). -/
def pyToLower (s : String) : String := String.mk (s.toList.map Char.toLower)

/-- One fuel-indexed step list of Python `s.replace(pat, rep)`:
left-to-right, non-overlapping; the fuel (the list length at the call site)
bounds the recursion. -/
def replaceAux (pat rep : List Char) : Nat → List Char → List Char
  | _, [] => []
  | 0, l => l
  | n + 1, c :: rest =>
    if !pat.isEmpty && listStarts pat (c :: rest) then
      rep ++ replaceAux pat rep n ((c :: rest).drop pat.length)
    else c :: replaceAux pat rep n rest

/-- Python `s.replace(pat, rep)`. -/
def pyReplace (s pat rep : String) : String :=
  String.mk (replaceAux pat.toList rep.toList s.toList.length s.toList)

/-- Python `int(s)` on the strings this code feeds it: optional surrounding
whitespace around a nonempty run of ASCII digits; anything else raises
(modelled as `none`). -/
def pyInt (s : String) : Option Int :=
  let t := pyStrip s
  if t.isEmpty then none
  else if t.toList.all Char.isDigit then some ((digitsToNat t.toList : Nat) : Int)
  else none

/-- Python `float(s)` on decimal version strings (`"2.4"`, `"3.0"`), as exact
rationals; a non-decimal string raises (modelled as `none`).  The only use is
the servlet-version threshold comparison in `check_java_legacy`, where the
thresholds 2.5 and 3.0 are exactly representable, so the rational model agrees
with the binary float comparison of the source. -/
def pyFloat (s : String) : Option ℚ :=
  let t := pyStrip s
  match t.toList with
  | [] => none
  | l =>
    let ip := l.takeWhile Char.isDigit
    let rest := l.drop ip.length
    if ip.isEmpty then none
    else
      match rest with
      | [] => some ((digitsToNat ip : ℚ))
      | '.' :: fr =>
        if fr.all Char.isDigit then
          some (((digitsToNat ip : Nat) : ℚ) +
            (if fr.isEmpty then 0 else ((digitsToNat fr : Nat) : ℚ) / ((10 : ℚ) ^ fr.length)))
        else none
      | _ => none

/-- Generic leftmost search: try the matcher at every suffix, in order.  This
is the `re.search` strategy shared by all the concrete scanners below. -/
def searchWith (f : List Char → Option α) : List Char → Option α
  | [] => none
  | l@(_ :: rest) =>
    match f l with
    | some r => some r
    | none => searchWith f rest

/-- Scanner for `re.search(r'(\d+)', s)`: the leftmost maximal digit run.
Used by `check_spring_boot` and `check_angular` for tolerant major-version
extraction. -/
def searchFirstNat (s : String) : Option Nat :=
  searchWith
    (fun l =>
      match l with
      | c :: rest =>
        if c.isDigit then some (digitsToNat (c :: rest.takeWhile Char.isDigit))
        else none
      | [] => none)
    s.toList

/-- Matcher for `(\d+)\.(\d+)` anchored at the head of the list. -/
def tryMajorMinor (l : List Char) : Option (Nat × Nat) :=
  match l with
  | c :: rest =>
    if c.isDigit then
      let run := c :: rest.takeWhile Char.isDigit
      match rest.drop (run.length - 1) with
      | '.' :: d :: r3 =>
        if d.isDigit then
          some (digitsToNat run, digitsToNat (d :: r3.takeWhile Char.isDigit))
        else none
      | _ => none
    else none
  | [] => none

/-- Scanner for `re.search(r'(\d+)\.(\d+)', s)` (Spring Framework version in
`check_java_legacy`). -/
def searchMajorMinor (s : String) : Option (Nat × Nat) :=
  searchWith tryMajorMinor s.toList

/-- Matcher for the version group `(\d+\.\d+\.?\d*)` anchored at the head:
digits, a dot, digits, then optionally a dot and a possibly empty digit run. -/
def tryVersionTriple (l : List Char) : Option String :=
  match l with
  | c :: rest =>
    if c.isDigit then
      let run := c :: rest.takeWhile Char.isDigit
      match rest.drop (run.length - 1) with
      | '.' :: d :: r3 =>
        if d.isDigit then
          let run2 := d :: r3.takeWhile Char.isDigit
          let after2 := r3.drop (run2.length - 1)
          match after2 with
          | '.' :: r4 =>
            some (String.mk (run ++ '.' :: run2 ++ '.' :: r4.takeWhile Char.isDigit))
          | _ => some (String.mk (run ++ '.' :: run2))
        else none
      | _ => none
    else none
  | [] => none

/-- Scanner for `re.search(r'(\d+\.\d+\.?\d*)', spec)` (pyproject and setup.py
version specifiers). -/
def searchVersionTriple (s : String) : Option String :=
  searchWith tryVersionTriple s.toList

/-- `re.search(r'^(\d+\.\d+\.?\d*)', s)`: the same version group anchored at
the start (`.python-version` files). -/
def matchVersionAnchored (s : String) : Option String :=
  tryVersionTriple s.toList

/-- Scanner for `re.search(r'Python\s+(\d+\.\d+\.?\d*)', out)`: the output of
`python --version`. -/
def searchPythonVersionOut (s : String) : Option String :=
  searchWith
    (fun l =>
      if listStarts "Python".toList l then
        let after := l.drop 6
        let sp := after.takeWhile isPySpace
        if sp.isEmpty then none else tryVersionTriple (after.drop sp.length)
      else none)
    s.toList

/-- One of Python's quote characters, the class `["\']`. -/
def isQuoteC (c : Char) : Bool := c == '\x22' || c == '\x27'

/-- Matcher for `KEY\s*=\s*["\']([^"\']+)["\']` anchored at the head, for a
fixed literal KEY; returns the captured group. -/
def tryKeyQuoted (key : List Char) (l : List Char) : Option String :=
  if listStarts key l then
    match (l.drop key.length).dropWhile isPySpace with
    | '=' :: a2 =>
      match a2.dropWhile isPySpace with
      | q :: a4 =>
        if isQuoteC q then
          let cap := a4.takeWhile (fun c => !isQuoteC c)
          match a4.drop cap.length with
          | q2 :: _ => if isQuoteC q2 && !cap.isEmpty then some (String.mk cap) else none
          | [] => none
        else none
      | [] => none
    | _ => none
  else none

/-- Scanner for `re.search(r'requires-python\s*=\s*["\']([^"\']+)["\']', s)`. -/
def searchRequiresPython (s : String) : Option String :=
  searchWith (tryKeyQuoted "requires-python".toList) s.toList

/-- Scanner for `re.search(r'python_requires\s*=\s*["\']([^"\']+)["\']', s)`
(setup.py). -/
def searchPythonRequires (s : String) : Option String :=
  searchWith (tryKeyQuoted "python_requires".toList) s.toList

/-- The `[^\[]*KEY...` part of the sectioned patterns: scan forward from the
section header, trying the quoted-assignment matcher at each position, and
stop at the first `[` (the end of the `[^\[]*` region). -/
def sectionScan (key : List Char) : List Char → Option String
  | [] => none
  | l@(c :: rest) =>
    match tryKeyQuoted key l with
    | some v => some v
    | none => if c == '[' then none else sectionScan key rest

/-- Matcher for `\[HDR\][^\[]*KEY\s*=\s*["\']([^"\']+)["\']` anchored at the
head (the DOTALL section patterns for pyproject Poetry and Pipfile). -/
def trySection (hdr key : List Char) (l : List Char) : Option String :=
  if listStarts hdr l then sectionScan key (l.drop hdr.length) else none

/-- Scanner for the Poetry pattern
`\[tool\.poetry\.dependencies\][^\[]*python\s*=\s*["\']([^"\']+)["\']`. -/
def searchPoetryPython (s : String) : Option String :=
  searchWith (trySection "[tool.poetry.dependencies]".toList "python".toList) s.toList

/-- Scanner for the Pipfile pattern
`\[requires\][^\[]*python_version\s*=\s*["\']([^"\']+)["\']`. -/
def searchPipfilePython (s : String) : Option String :=
  searchWith (trySection "[requires]".toList "python_version".toList) s.toList

/-- Scanner for `re.search(r'springframework[\'"]:\s*[\'"]([0-9.]+)', s)`
(Spring version in build.gradle). -/
def searchGradleSpring (s : String) : Option String :=
  searchWith
    (fun l =>
      if listStarts "springframework".toList l then
        match l.drop 15 with
        | q :: ':' :: r2 =>
          if isQuoteC q then
            match r2.dropWhile isPySpace with
            | q2 :: r4 =>
              if isQuoteC q2 then
                let cap := r4.takeWhile (fun c => c.isDigit || c == '.')
                if cap.isEmpty then none else some (String.mk cap)
              else none
            | [] => none
          else none
        | _ => none
      else none)
    s.toList

/-- The word class `[\w\-]` of the SECRET_KEY pattern (ASCII model). -/
def isWordDash (c : Char) : Bool :=
  c.isAlpha || c.isDigit || c == '_' || c == '-'

/-- Scanner for `re.search(r"SECRET_KEY\s*=\s*['\"][\w\-]+['\"]", s)` as a
boolean test (Django settings). -/
def searchSecretKey (s : String) : Bool :=
  (searchWith
    (fun l =>
      if listStarts "SECRET_KEY".toList l then
        match (l.drop 10).dropWhile isPySpace with
        | '=' :: a2 =>
          match a2.dropWhile isPySpace with
          | q :: a4 =>
            if isQuoteC q then
              let cap := a4.takeWhile isWordDash
              match a4.drop cap.length with
              | q2 :: _ => if isQuoteC q2 && !cap.isEmpty then some () else none
              | [] => none
            else none
          | [] => none
        | _ => none
      else none)
    s.toList).isSome

/-- Scanner for `re.search(r'PKG==([0-9.]+)', s)` for a fixed package name
(requirements.txt pins). -/
def searchPkgPin (pkg : String) (s : String) : Option String :=
  searchWith
    (fun l =>
      if listStarts (pkg.toList ++ ['=', '=']) l then
        let cap := (l.drop (pkg.length + 2)).takeWhile (fun c => c.isDigit || c == '.')
        if cap.isEmpty then none else some (String.mk cap)
      else none)
    s.toList

/-- Scanner for `re.search(r'django\s*=\s*"([^"]+)"', s, re.IGNORECASE)`
(Poetry dependency in pyproject.toml); the double quote is the only quote
character in this pattern. -/
def searchPoetryDjango (s : String) : Option String :=
  searchWith
    (fun l =>
      if (l.take 6).map Char.toLower == "django".toList then
        match (l.drop 6).dropWhile isPySpace with
        | '=' :: a2 =>
          match a2.dropWhile isPySpace with
          | '\x22' :: a4 =>
            let cap := a4.takeWhile (fun c => c != '\x22')
            match a4.drop cap.length with
            | '\x22' :: _ => if cap.isEmpty then none else some (String.mk cap)
            | _ => none
          | _ => none
        | _ => none
      else none)
    s.toList

/-- Outcome of one `subprocess.run` invocation: a completed process with its
return code and captured streams, a `TimeoutExpired`, or any other exception
(`FileNotFoundError` included — every call site catches it the same way). -/
inductive RunRes where
  | ok (rc : Int) (out err : String)
  | timeout
  | exc
deriving DecidableEq, Repr

/-- The subprocess environment of `detect_python_version`: whether the venv
python binary `<root>/<name>/bin/python` exists for a candidate venv directory
name, and the result of running a command line with a timeout.  The platform
is modelled as POSIX (`sys.platform != 'win32'`): binary name `python`,
directory `bin`, command order `['python3', 'python']`, locator `which`. -/
structure PyEnv where
  venvPython : String → Bool
  run : List String → Nat → RunRes

/-- A `pom.xml` property element: its tag name, whether it carries the Maven
namespace, and its text (ElementTree `.text`, `none` for an empty element). -/
structure PomProp where
  name : String
  namespaced : Bool
  text : Option String
deriving DecidableEq, Repr

/-- The `<parent>` element of a pom: each child is either absent (`none`) or
present with optional text. -/
structure PomParent where
  artifactId : Option (Option String)
  version : Option (Option String)
deriving DecidableEq, Repr

/-- One `<dependency>` element. -/
structure PomDep where
  groupId : Option (Option String)
  artifactId : Option (Option String)
  version : Option (Option String)
deriving DecidableEq, Repr

/-- The parsed `pom.xml` as the checkers read it through ElementTree:
`find` on a missing child returns `none`. -/
structure Pom where
  parent : Option PomParent
  dependencies : Option (List PomDep)
  properties : Option (List PomProp)
deriving DecidableEq, Repr

/-- ElementTree `properties.find(f"m:{name}", ns)` with the source's fallback
`properties.find(name)` for non-namespaced POMs: first the namespaced lookup,
then the bare one. -/
def pomFindProp (props : List PomProp) (name : String) : Option (Option String) :=
  match props.find? (fun p => p.namespaced && p.name == name) with
  | some p => some p.text
  | none =>
    match props.find? (fun p => !p.namespaced && p.name == name) with
    | some p => some p.text
    | none => none

/-- Namespaced-only property lookup (`check_spring_boot` has no fallback). -/
def pomFindPropNs (props : List PomProp) (name : String) : Option (Option String) :=
  match props.find? (fun p => p.namespaced && p.name == name) with
  | some p => some p.text
  | none => none

/-- The parsed `angular.json` fields the Angular checker reads: whether
`data.get("projects")` is a dict, and the `$schema` value (`none` = key
absent, so `data.get("$schema", "")` yields the empty string). -/
structure AngularData where
  projectsIsDict : Bool
  schema : Option String
deriving DecidableEq, Repr

/-- The parsed `package.json` fields the checkers read; a missing
`dependencies`/`devDependencies` key and an empty object coincide under
`data.get(key, {})`. -/
structure PkgData where
  dependencies : List (String × String)
  devDependencies : List (String × String)
deriving DecidableEq, Repr

/-- One directory yielded by `os.walk(project_path)`: its path components
below the project root (the root itself is `[]`) and its file names, in
traversal order. -/
structure WalkEntry where
  dir : List String
  files : List String
deriving DecidableEq, Repr

/-- The filesystem as the probes observe it, one field per read the source
performs.  For text files read inside a `try`, `Option (Option String)` is
(exists?, readable content?): `none` = file absent, `some none` = the read
raised an `IOError` (each call site catches it), `some (some s)` = content.
Structured parses (`ET.parse`, `load_json_file`) appear pre-parsed, since XML
and JSON parsing are library collaborators: for the pom, `some (.error ())` is
an `ET.ParseError`; for JSON, `some none` is a decode failure (`load_json_file`
returns `None` on it). -/
structure FS where
  root : String
  isDir : Bool
  pom : Option (Except Unit Pom)
  buildGradle : Option (Option String)
  appProps : Bool
  appYml : Bool
  appYaml : Bool
  webInfMain : Bool
  webInfWebContent : Bool
  webXmlExists : Bool
  webXml : Except Unit (Option String)
  angularJson : Option (Option AngularData)
  packageJson : Option (Option PkgData)
  vueConfig : Bool
  viteConfig : Bool
  nuxtConfig : Bool
  gitlabCi : Bool
  walk : List WalkEntry
  readFile : String → Option String
  requirementsTxt : Option (Option String)
  setupPyFile : Option (Option String)
  pyprojectToml : Option (Option String)
  pipfileFile : Option (Option String)
  poetryLock : Bool
  managePy : Bool
  appPy : Option (Option String)
  mainPy : Option (Option String)
  pythonVersionFile : Option (Option String)
  wsgiPy : Bool
  asgiPy : Bool
  pytestIni : Bool
  toxIni : Bool
  conftestPy : Bool
  dockerfile : Bool
  pyEnv : PyEnv

/-- The log of subprocess invocations a run of `detect_python_version`
performs, each with the timeout it passed — the explicit trace of the only
effect the function has besides its return value. -/
abbrev CallTrace := List (List String × Nat)

/-- `int()` on a string the surrounding regex already constrained to ASCII
digits (major/minor parts of a matched version group); total by construction
at those call sites. -/
def intOfDigits (s : String) : Int := ((digitsToNat s.toList : Nat) : Int)

/-- The major/minor assignments shared verbatim by every branch of
`detect_python_version`: `version_parts = full_version.split('.')`, then
`python_major_version` and, when a second part exists, `python_minor_version`.
Call sites where `int()` could raise use `pyInt` directly instead. -/
def setMajorMinor (d : Attrs) (fullv : String) : Attrs :=
  let parts := pySplit fullv '.'
  let d := dset d "python_major_version" (.vN (intOfDigits (parts.getD 0 "")))
  if parts.length ≥ 2 then
    dset d "python_minor_version" (.vN (intOfDigits (parts.getD 1 "")))
  else d

/-- One candidate of the venv loop (strategy 1 of `detect_python_version`):
if `<root>/<name>/bin/python` exists, run it with `--version` and `timeout=5`;
on return code 0 and parsable output, build and return the details dict.  Any
timeout, exception, failing return code or unparsable output falls through to
the next candidate.  The second component is the subprocess trace. -/
def tryVenvCandidate (fs : FS) (name : String) : Option Attrs × CallTrace :=
  let venvDir := pyJoin fs.root name
  let venvPython := pyJoin (pyJoin venvDir "bin") "python"
  if fs.pyEnv.venvPython name then
    let tr : CallTrace := [([venvPython, "--version"], 5)]
    match fs.pyEnv.run [venvPython, "--version"] 5 with
    | .ok rc out err =>
      if rc == 0 then
        let vout := if !(pyStrip out).isEmpty then pyStrip out else pyStrip err
        match searchPythonVersionOut vout with
        | some fullv =>
          let d := dset [] "python_version" (.vS fullv)
          let d := dset d "python_path" (.vS venvPython)
          let d := dset d "python_source" (.vS "venv")
          let d := dset d "is_venv" (.vB true)
          let d := dset d "venv_path" (.vS venvDir)
          (some (setMajorMinor d fullv), tr)
        | none => (none, tr)
      else (none, tr)
    | .timeout => (none, tr)
    | .exc => (none, tr)
  else (none, [])

/-- Strategy 2.1: the `.python-version` (pyenv) file, with the anchored
version regex on the stripped content. -/
def pyenvPhase (fs : FS) (d : Attrs) : Option Attrs :=
  match fs.pythonVersionFile with
  | some (some content) =>
    match matchVersionAnchored (pyStrip content) with
    | some fullv =>
      let d := dset d "python_version" (.vS fullv)
      let d := dset d "python_source" (.vS "pyenv")
      let d := dset d "is_venv" (.vB false)
      some (setMajorMinor d fullv)
    | none => none
  | _ => none

/-- Strategy 2.2: `pyproject.toml`, first `requires-python = "..."`, then the
Poetry section pattern; the captured specifier must itself contain a version
group. -/
def pyprojectPhase (fs : FS) (d : Attrs) : Option Attrs :=
  match fs.pyprojectToml with
  | some (some content) =>
    let requiresMatch :=
      match searchRequiresPython content with
      | some v => some v
      | none => searchPoetryPython content
    match requiresMatch with
    | some spec =>
      match searchVersionTriple spec with
      | some fullv =>
        let d := dset d "python_version_required" (.vS spec)
        let d := dset d "python_version" (.vS fullv)
        let d := dset d "python_source" (.vS "pyproject")
        let d := dset d "is_venv" (.vB false)
        some (setMajorMinor d fullv)
      | none => none
    | none => none
  | _ => none

/-- Strategy 2.3: the `[requires]` section of a Pipfile.  The captured
`python_version` value is stored unvalidated, and `int()` on its dot-parts can
raise: the exception is caught by the enclosing `try`, the return is skipped,
and the mutations performed so far remain in the shared details dict — so this
phase yields the possibly mutated dict alongside the optional return value. -/
def pipfilePhase (fs : FS) (d : Attrs) : Attrs × Option Attrs :=
  match fs.pipfileFile with
  | some (some content) =>
    match searchPipfilePython content with
    | some fullv =>
      let d := dset d "python_version" (.vS fullv)
      let d := dset d "python_source" (.vS "pipfile")
      let d := dset d "is_venv" (.vB false)
      let parts := pySplit fullv '.'
      match pyInt (parts.getD 0 "") with
      | none => (d, none)
      | some mj =>
        let d := dset d "python_major_version" (.vN mj)
        if parts.length ≥ 2 then
          match pyInt (parts.getD 1 "") with
          | none => (d, none)
          | some mi => (d, some (dset d "python_minor_version" (.vN mi)))
        else (d, some d)
    | none => (d, none)
  | _ => (d, none)

/-- Strategy 2.4: `python_requires` in `setup.py`. -/
def setupPyPhase (fs : FS) (d : Attrs) : Option Attrs :=
  match fs.setupPyFile with
  | some (some content) =>
    match searchPythonRequires content with
    | some spec =>
      match searchVersionTriple spec with
      | some fullv =>
        let d := dset d "python_version_required" (.vS spec)
        let d := dset d "python_version" (.vS fullv)
        let d := dset d "python_source" (.vS "setup.py")
        let d := dset d "is_venv" (.vB false)
        some (setMajorMinor d fullv)
      | none => none
    | none => none
  | _ => none

/-- One iteration of strategy 3's loop over the system interpreter commands:
run `<cmd> --version` with `timeout=5`; on return code 0 and parsable output,
locate the binary with `which` (also `timeout=5`) and return the details.
Both calls sit inside the same `try`: a timeout, `FileNotFoundError` or other
exception of either call aborts the iteration with nothing written and falls
to the next command.  Only a which call that completes with a non-zero return
code leaves `python_path` as the bare command name. -/
def trySystemCmd (fs : FS) (d : Attrs) (cmd : String) : Option Attrs × CallTrace :=
  match fs.pyEnv.run [cmd, "--version"] 5 with
  | .ok rc out err =>
    if rc == 0 then
      let vout := if !(pyStrip out).isEmpty then pyStrip out else pyStrip err
      match searchPythonVersionOut vout with
      | some fullv =>
        let tr : CallTrace := [([cmd, "--version"], 5), (["which", cmd], 5)]
        match fs.pyEnv.run ["which", cmd] 5 with
        | .ok prc pout _ =>
          let pythonPath : Option String :=
            if prc == 0 then some (pyStrip (pySplit (pyStrip pout) '\n').headI)
            else none
          let pathVal :=
            match pythonPath with
            | some p => if !p.isEmpty then p else cmd
            | none => cmd
          let d := dset d "python_version" (.vS fullv)
          let d := dset d "python_path" (.vS pathVal)
          let d := dset d "python_source" (.vS "system")
          let d := dset d "is_venv" (.vB false)
          (some (setMajorMinor d fullv), tr)
        | .timeout => (none, tr)
        | .exc => (none, tr)
      | none => (none, [([cmd, "--version"], 5)])
    else (none, [([cmd, "--version"], 5)])
  | .timeout => (none, [([cmd, "--version"], 5)])
  | .exc => (none, [([cmd, "--version"], 5)])

/-- One fold step of the venv loop (strategy 1), short-circuiting once a
candidate returned. -/
def venvStep (fs : FS) (acc : Option Attrs × CallTrace) (name : String) :
    Option Attrs × CallTrace :=
  match acc with
  | (some d, tr) => (some d, tr)
  | (none, tr) =>
    let (r, tr2) := tryVenvCandidate fs name
    (r, tr ++ tr2)

/-- One fold step of the system-command loop (strategy 3), short-circuiting
once a command succeeded. -/
def sysStep (fs : FS) (dLeft : Attrs) (acc : Option Attrs × CallTrace) (cmd : String) :
    Option Attrs × CallTrace :=
  match acc with
  | (some d, tr) => (some d, tr)
  | (none, tr) =>
    let (r, tr2) := trySystemCmd fs dLeft cmd
    (r, tr ++ tr2)

/-- `detect_python_version(project_path)` (src/core/project_analyzer.py):
the ordered strategy chain — project virtual environments, configuration
files (`.python-version`, `pyproject.toml`, `Pipfile`, `setup.py`), then the
system interpreter — returning the details dict of the first strategy that
succeeds, or the (possibly Pipfile-mutated) dict if none does.  The second
component is the full subprocess invocation trace with the timeout of each
call. -/
def detect_python_version (fs : FS) : Attrs × CallTrace :=
  let (venvRes, tr0) := [".venv", "venv", "env", ".env"].foldl (venvStep fs) (none, [])
  match venvRes with
  | some d => (d, tr0)
  | none =>
    match pyenvPhase fs [] with
    | some d => (d, tr0)
    | none =>
      match pyprojectPhase fs [] with
      | some d => (d, tr0)
      | none =>
        let (dLeft, pipRes) := pipfilePhase fs []
        match pipRes with
        | some d => (d, tr0)
        | none =>
          match setupPyPhase fs dLeft with
          | some d => (d, tr0)
          | none =>
            let (sysRes, tr1) := ["python3", "python"].foldl (sysStep fs dLeft) (none, tr0)
            match sysRes with
            | some d => (d, tr1)
            | none => (dLeft, tr1)

/-- The indicator file names `check_python` probes at the project root, in
the source's order. -/
def pythonIndicators : List String :=
  ["requirements.txt", "setup.py", "pyproject.toml",
   "Pipfile", "poetry.lock", "manage.py", "app.py", "main.py"]

/-- Existence of each indicator file in the modelled filesystem. -/
def fsHasIndicator (fs : FS) : String → Bool
  | "requirements.txt" => fs.requirementsTxt.isSome
  | "setup.py" => fs.setupPyFile.isSome
  | "pyproject.toml" => fs.pyprojectToml.isSome
  | "Pipfile" => fs.pipfileFile.isSome
  | "poetry.lock" => fs.poetryLock
  | "manage.py" => fs.managePy
  | "app.py" => fs.appPy.isSome
  | "main.py" => fs.mainPy.isSome
  | _ => false

/-- The directory names pruned from the `.py`-counting walk
(`dirs[:] = [d for d in dirs if d not in [...]]`); pruning a directory removes
its whole subtree, i.e. every walk entry with that component in its path. -/
def prunedDirs : List String :=
  ["venv", ".venv", "env", "__pycache__", ".git", "node_modules"]

/-- Number of `.py` files seen by the pruned walk of `check_python` (the
source stops counting at 3; only the `count >= 3` decision is observable). -/
def pyFileCount (fs : FS) : Nat :=
  (fs.walk.filter (fun e => !e.dir.any (fun c => prunedDirs.contains c))).foldl
    (fun n e => n + (e.files.filter (fun f => pyEndsWith f ".py")).length) 0

/-- The first directory of the (unpruned) walk containing `settings.py`,
where the Django phase stops. -/
def findSettingsEntry (fs : FS) : Option WalkEntry :=
  fs.walk.find? (fun e => e.files.contains "settings.py")

/-- Django phase of `check_python`: triggered by `manage.py`, records the
settings path, and scans the settings content for the debug flag, the
database backend and a hardcoded `SECRET_KEY` (a read failure skips the
scan). -/
def djangoPhase (fs : FS) (fw : List String) (d : Attrs) : List String × Attrs :=
  let fw := fw ++ ["Django"]
  let d := dset d "is_django" (.vB true)
  match findSettingsEntry fs with
  | some e =>
    let p := pyJoin (joinComponents fs.root e.dir) "settings.py"
    let d := dset d "django_settings_path" (.vS p)
    match fs.readFile p with
    | some content =>
      let d := if pyIn "DEBUG = True" content then dset d "debug_enabled" (.vB true) else d
      let d :=
        if pyIn "sqlite3" content then dset d "database_sqlite" (.vB true)
        else if pyIn "postgresql" content || pyIn "psycopg" content then
          dset d "database_postgresql" (.vB true)
        else if pyIn "mysql" content then dset d "database_mysql" (.vB true)
        else d
      let d := if searchSecretKey content then dset d "hardcoded_secret_key" (.vB true) else d
      (fw, d)
    | none => (fw, d)
  | none => (fw, d)

/-- Flask phase: confirm `app.py` actually imports flask, then check for the
debug flag. -/
def flaskPhase (fs : FS) (fw : List String) (d : Attrs) : List String × Attrs :=
  match fs.appPy with
  | some (some content) =>
    if pyIn "from flask import" content || pyIn "import flask" content then
      let fw := fw ++ ["Flask"]
      let d := dset d "is_flask" (.vB true)
      let d :=
        if pyIn "debug=True" content || pyIn "app.debug = True" content then
          dset d "debug_enabled" (.vB true)
        else d
      (fw, d)
    else (fw, d)
  | _ => (fw, d)

/-- FastAPI phase: confirm `main.py` imports fastapi. -/
def fastapiPhase (fs : FS) (fw : List String) (d : Attrs) : List String × Attrs :=
  match fs.mainPy with
  | some (some content) =>
    if pyIn "from fastapi import" content || pyIn "import fastapi" content then
      (fw ++ ["FastAPI"], dset d "is_fastapi" (.vB true))
    else (fw, d)
  | _ => (fw, d)

/-- One requirement line of the requirements.txt loop: pin extraction for
django/flask/fastapi, else the risky-package test, on the lowercased line. -/
def reqLineStep (acc : Attrs × List String) (req : String) : Attrs × List String :=
  let (d, risky) := acc
  let low := pyToLower req
  if pyIn "django==" low then
    (match searchPkgPin "django" low with
     | some v => (dset d "django_version" (.vS v), risky)
     | none => (d, risky))
  else if pyIn "flask==" low then
    (match searchPkgPin "flask" low with
     | some v => (dset d "flask_version" (.vS v), risky)
     | none => (d, risky))
  else if pyIn "fastapi==" low then
    (match searchPkgPin "fastapi" low with
     | some v => (dset d "fastapi_version" (.vS v), risky)
     | none => (d, risky))
  else if pyIn "pycrypto" low || pyIn "md5" low || pyIn "pickle" low then
    (d, risky ++ [req])
  else (d, risky)

/-- requirements.txt phase: split into stripped, non-empty, non-comment
lines, record them, and run the per-line pin/risk loop. -/
def requirementsPhase (fs : FS) (d : Attrs) : Attrs :=
  match fs.requirementsTxt with
  | some (some content) =>
    let reqs := ((pySplit content '\n').map pyStrip).filter
      (fun l => !l.isEmpty && !(pyStartsWith l "#"))
    let d := dset d "requirements" (.vL reqs)
    let (d, risky) := reqs.foldl reqLineStep (d, [])
    if !risky.isEmpty then dset d "risky_packages" (.vL risky) else d
  | _ => d

/-- pyproject.toml phase: mark the Poetry project and extract a Django
dependency pin (case-insensitive). -/
def pyprojectPoetryPhase (fs : FS) (fw : List String) (d : Attrs) : List String × Attrs :=
  match fs.pyprojectToml with
  | some (some content) =>
    let d := dset d "is_poetry" (.vB true)
    match searchPoetryDjango content with
    | some v =>
      let d := dset d "django_version" (.vS v)
      if fw.contains "Django" then (fw, d)
      else (fw ++ ["Django"], dset d "is_django" (.vB true))
    | none => (fw, d)
  | _ => (fw, d)

/-- Pipfile phase: mark the Pipenv project and look for django in the
lowercased content. -/
def pipenvPhase (fs : FS) (fw : List String) (d : Attrs) : List String × Attrs :=
  match fs.pipfileFile with
  | some (some content) =>
    let d := dset d "is_pipenv" (.vB true)
    if pyIn "django" (pyToLower content) then
      if fw.contains "Django" then (fw, d)
      else (fw ++ ["Django"], dset d "is_django" (.vB true))
    else (fw, d)
  | _ => (fw, d)

/-- Everything `check_python` accumulates into its details dict before the
final security-priority classification, given the found indicator list. -/
def pythonGather (fs : FS) (found : List String) : Attrs :=
  let d : Attrs := dset [] "python_indicators" (.vL found)
  let fw : List String := []
  let (fw, d) := if found.contains "manage.py" then djangoPhase fs fw d else (fw, d)
  let (fw, d) := if found.contains "app.py" then flaskPhase fs fw d else (fw, d)
  let (fw, d) := if found.contains "main.py" then fastapiPhase fs fw d else (fw, d)
  let d := if found.contains "requirements.txt" then requirementsPhase fs d else d
  let (fw, d) := if found.contains "pyproject.toml" then pyprojectPoetryPhase fs fw d else (fw, d)
  let (fw, d) := if found.contains "Pipfile" then pipenvPhase fs fw d else (fw, d)
  let d := if fs.wsgiPy then dset d "has_wsgi" (.vB true) else d
  let d := if fs.asgiPy then dset d "has_asgi" (.vB true) else d
  let d := if fs.pytestIni then dset d "has_pytest" (.vB true) else d
  let d := if fs.toxIni then dset d "has_tox" (.vB true) else d
  let d := if fs.conftestPy then dset d "has_conftest" (.vB true) else d
  let d := if fs.dockerfile then dset d "has_docker" (.vB true) else d
  let d := dset d "frameworks_detected" (.vL fw)
  let pvd := (detect_python_version fs).1
  if !pvd.isEmpty then dupdate d pvd else d

/-- The final classification of `check_python`: high on an enabled debug
flag, else medium on a hardcoded secret key or risky packages, else low. -/
def pythonSecurityPriority (d : Attrs) : String :=
  if dtruthy d "debug_enabled" then "high"
  else if dtruthy d "hardcoded_secret_key" || dtruthy d "risky_packages" then "medium"
  else "low"

/-- `check_python(project_path)` (src/core/project_analyzer.py): a Python
project is recognised by any indicator file, or failing that by at least
three `.py` files in the pruned walk; the details dict is gathered by the
framework/dependency phases and `detect_python_version`, and ends with the
security-priority classification. -/
def check_python (fs : FS) : Except Unit (Option String × Attrs) :=
  let found := pythonIndicators.filter (fsHasIndicator fs)
  if found.isEmpty && pyFileCount fs < 3 then .ok (none, [])
  else
    let d := pythonGather fs found
    .ok (some "python", dset d "security_priority" (.vS (pythonSecurityPriority d)))

/-- ElementTree text as a stored dict value (`.text` of an empty element is
`None`). -/
def optText : Option String → Val
  | some s => .vS s
  | none => .vNone

/-- Python truthiness of an optional string (`None` and `""` are falsy). -/
def optTruthy : Option String → Bool
  | some s => !s.isEmpty
  | none => false

/-- Result of the pom.xml `try` block of `check_spring_boot`: either a
`return` executed inside it, or a fall-through (the block completed without
returning, or an exception was caught) carrying the details dict as mutated so
far. -/
inductive PomPhase where
  | ret (r : Option String × Attrs)
  | fall (d : Attrs)
deriving DecidableEq, Repr

/-- One dependency of the starter-parent branch of `check_spring_boot`; the
membership tests on `artifactId.text` raise a `TypeError` when the element is
empty (`.error`), which aborts the whole `try`. -/
def sbDepStep (d : Attrs) (dep : PomDep) : Except Unit Attrs :=
  match dep.groupId, dep.artifactId with
  | some gt, some at_ =>
    if gt == some "org.springframework.boot" && at_ == some "spring-boot-starter-security" then
      .ok (dset d "uses_spring_security" (.vB true))
    else if gt == some "org.springframework.boot" && at_ == some "spring-boot-starter-data-jpa" then
      .ok (dset d "uses_spring_data_jpa" (.vB true))
    else if gt == some "org.springframework.boot" && at_ == some "spring-boot-starter-actuator" then
      .ok (dset d "uses_actuator" (.vB true))
    else if gt == some "org.springframework.boot" && at_ == some "spring-boot-starter-webflux" then
      .ok (dset d "uses_webflux" (.vB true))
    else if (match gt with
             | some s => !s.isEmpty && pyIn "org.springframework.cloud" s
             | none => false) then
      .ok (dset d "uses_spring_cloud" (.vB true))
    else if gt == some "mysql" then
      match at_ with
      | none => .error ()
      | some s => .ok (if pyIn "mysql-connector" s then dset d "database_mysql" (.vB true) else d)
    else if gt == some "org.postgresql" then
      match at_ with
      | none => .error ()
      | some s => .ok (if pyIn "postgresql" s then dset d "database_postgresql" (.vB true) else d)
    else if gt == some "com.h2database" then
      match at_ with
      | none => .error ()
      | some s =>
        .ok (if pyIn "h2" s then
          dset (dset d "database_h2" (.vB true)) "h2_console_risk" (.vB true) else d)
    else .ok d
  | _, _ => .ok d

/-- The dependency loop of the starter branch: on a raising step the
mutations so far survive (the dict) and the exception flag is set. -/
def sbDepScan (d : Attrs) : List PomDep → Attrs × Bool
  | [] => (d, false)
  | dep :: rest =>
    match sbDepStep d dep with
    | .ok d2 => sbDepScan d2 rest
    | .error _ => (d, true)

/-- End of the starter branch: scan the `<dependencies>` (if present) and
return `"springboot"`, unless a step raised. -/
def sbStarterFinish (pom : Pom) (d : Attrs) : PomPhase :=
  match pom.dependencies with
  | none => .ret (some "springboot", d)
  | some deps =>
    match sbDepScan d deps with
    | (d2, false) => .ret (some "springboot", d2)
    | (d2, true) => .fall d2

/-- The fallback dependency check of `check_spring_boot` (no starter parent):
the first `org.springframework.boot` dependency whose artifact id contains
`spring-boot-starter` wins, optionally taking the version from the
`spring-boot.version` property; an empty artifact element raises on the
membership test. -/
def sbCheckDepLoop (pom : Pom) (d : Attrs) : List PomDep → PomPhase
  | [] => .fall d
  | dep :: rest =>
    match dep.groupId with
    | some gt =>
      if gt == some "org.springframework.boot" then
        match dep.artifactId with
        | some none => .fall d
        | some (some s) =>
          if pyIn "spring-boot-starter" s then
            let d2 :=
              if (dget d "spring_boot_version").isSome then d
              else
                match pom.properties with
                | some props =>
                  match pomFindPropNs props "spring-boot.version" with
                  | some txt => dset d "spring_boot_version" (optText txt)
                  | none => d
                | none => d
            .ret (some "springboot", d2)
          else sbCheckDepLoop pom d rest
        | none => sbCheckDepLoop pom d rest
      else sbCheckDepLoop pom d rest
    | none => sbCheckDepLoop pom d rest

/-- The version handling of the starter branch on a present version text:
store the declared string, extract the major version by the tolerant
first-digit-run regex, and classify (`1` legacy/high, `2` modern/medium,
`>= 3` latest/low, anything else unflagged). -/
def sbStarterDetails (s : String) : Attrs :=
  let d := dset [] "spring_boot_version" (.vS s)
  match searchFirstNat s with
  | none => d
  | some mj =>
    let d := dset d "spring_boot_major_version" (.vN mj)
    if mj == 1 then
      dset (dset d "is_legacy" (.vB true)) "security_priority" (.vS "high")
    else if mj == 2 then
      dset (dset d "is_modern" (.vB true)) "security_priority" (.vS "medium")
    else if mj ≥ 3 then
      dset (dset (dset d "is_latest" (.vB true)) "requires_java17" (.vB true))
        "security_priority" (.vS "low")
    else d

/-- The whole pom.xml `try` block of `check_spring_boot` on a parsed pom. -/
def sbPomPhase (pom : Pom) : PomPhase :=
  match pom.parent with
  | some parent =>
    if parent.artifactId == some (some "spring-boot-starter-parent") then
      match parent.version with
      | none => sbStarterFinish pom []
      | some none => .fall (dset [] "spring_boot_version" .vNone)
      | some (some s) => sbStarterFinish pom (sbStarterDetails s)
    else
      match pom.dependencies with
      | some deps => sbCheckDepLoop pom [] deps
      | none => .fall []
  | none =>
    match pom.dependencies with
    | some deps => sbCheckDepLoop pom [] deps
    | none => .fall []

/-- `check_spring_boot(project_path)` (src/core/project_analyzer.py):
pom.xml (starter parent or boot starter dependency), then build.gradle
content, then the presence of an `application.(properties|yml|yaml)`; the
details mutated inside the pom `try` survive a caught exception and are
returned by the later branches, while the final non-match discards them. -/
def check_spring_boot (fs : FS) : Except Unit (Option String × Attrs) :=
  let pomPhase : PomPhase :=
    match fs.pom with
    | none => .fall []
    | some (.error _) => .fall []
    | some (.ok pom) => sbPomPhase pom
  match pomPhase with
  | .ret r => .ok r
  | .fall d =>
    let gradleHit : Bool :=
      match fs.buildGradle with
      | some (some content) =>
        pyIn "org.springframework.boot" content || pyIn "spring-boot-gradle-plugin" content
      | _ => false
    if gradleHit then .ok (some "springboot", d)
    else if fs.appProps || fs.appYml || fs.appYaml then .ok (some "springboot", d)
    else .ok (none, [])

/-- File loop of the legacy-Java walk: count JSP files (recording the first
three paths) and stop at the first Spring XML config file. -/
def jlScanFiles (rootp : String) (n : Nat) (d : Attrs) : List String → Nat × Attrs × Bool
  | [] => (n, d, false)
  | f :: rest =>
    let (n1, d1) :=
      if pyEndsWith f ".jsp" || pyEndsWith f ".jspf" || pyEndsWith f ".jspx" then
        let m := n + 1
        (m, if m ≤ 3 then dset d ("jsp_file_" ++ toString m) (.vS (pyJoin rootp f)) else d)
      else (n, d)
    if (pyIn "applicationContext.xml" f || pyIn "spring-servlet.xml" f
        || pyEndsWith f "-context.xml") && pyEndsWith f ".xml" then
      (n1, dset d1 "spring_xml_config" (.vS (pyJoin rootp f)), true)
    else jlScanFiles rootp n1 d1 rest

/-- Directory loop of the legacy-Java walk, skipping vendored/build paths by
substring and stopping once a Spring XML config was found. -/
def jlScanWalk (rootPath : String) (n : Nat) (d : Attrs) : List WalkEntry → Nat × Attrs × Bool
  | [] => (n, d, false)
  | e :: rest =>
    let rp := joinComponents rootPath e.dir
    if pyIn "target" rp || pyIn "build" rp || pyIn ".git" rp || pyIn "node_modules" rp then
      jlScanWalk rootPath n d rest
    else
      match jlScanFiles rp n d e.files with
      | (n1, d1, true) => (n1, d1, true)
      | (n1, d1, false) => jlScanWalk rootPath n1 d1 rest

/-- The Spring-version property names probed in order by `check_java_legacy`. -/
def jlSpringVersionProps : List String :=
  ["spring.version", "spring-framework.version", "springframework.version",
   "spring.framework.version", "org.springframework.version"]

/-- Properties phase of the legacy pom analysis: the first matching property
(namespaced, then bare) sets `spring_framework_version` and breaks. -/
def jlPropsPhase (pom : Pom) (d : Attrs) : Attrs :=
  match pom.properties with
  | some props =>
    let found := jlSpringVersionProps.foldl
      (fun acc nm =>
        match acc with
        | some t => some t
        | none => pomFindProp props nm) none
    match found with
    | some txt => dset d "spring_framework_version" (optText txt)
    | none => d
  | none => d

/-- Local state of the legacy dependency loop: the first Spring version seen
among dependencies and the technology flags, alongside the details dict. -/
structure JlState where
  svfd : Option String
  security : Bool
  webmvc : Bool
  orm : Bool
  hibernate : Bool
  struts : Bool
  d : Attrs
deriving DecidableEq, Repr

/-- Tail of the legacy dependency chain once the artifact text is known
(reached only when the struts disjunct already evaluated it). -/
def jlDepTail (st : JlState) (gt : Option String) (s : String) (vt : Option String) : JlState :=
  if gt == some "log4j" && pyIn "log4j" s then
    let d := dset st.d "uses_log4j" (.vB true)
    let d := dset d "log4j_version" (optText vt)
    let d :=
      if optTruthy vt && pyStartsWith (vt.getD "") "1." then
        dset d "log4j_security_risk" (.vB true)
      else d
    { st with d := d }
  else if gt == some "mysql" && pyIn "mysql-connector" s then
    { st with d := dset st.d "database_mysql" (.vB true) }
  else if gt == some "oracle" && pyIn "ojdbc" s then
    { st with d := dset st.d "database_oracle" (.vB true) }
  else if gt == some "com.microsoft.sqlserver" && pyIn "mssql-jdbc" s then
    { st with d := dset st.d "database_sqlserver" (.vB true) }
  else st

/-- The struts arm of the legacy chain: sets the flag and, when a version is
present, the struts attributes. -/
def jlStrutsArm (st : JlState) (vt : Option String) : JlState :=
  let st := { st with struts := true }
  if optTruthy vt then
    let d2 := dset (dset st.d "struts_version" (.vS (vt.getD ""))) "struts_security_risk" (.vB true)
    { st with d := d2 }
  else st

/-- One dependency of the legacy pom loop; `in` tests on an empty artifact
element raise (`.error`), aborting the enclosing `try`.  The error carries
the state as mutated up to the raise point: in the `org.springframework`
branch the `spring_framework_version` assignment precedes the raising `in`
test, so that write survives the caught exception. -/
def jlDepStep (st : JlState) (dep : PomDep) : Except JlState JlState :=
  match dep.groupId, dep.artifactId with
  | some gt, some at_ =>
    let vt : Option String := dep.version.bind id
    if gt == some "org.springframework" then
      let st :=
        if st.svfd.isNone && optTruthy vt then
          let d2 := dset st.d "spring_framework_version" (.vS (vt.getD ""))
          { st with svfd := vt, d := d2 }
        else st
      match at_ with
      | none => .error st
      | some s =>
        .ok (if pyIn "spring-security" s then { st with security := true }
             else if pyIn "spring-webmvc" s then { st with webmvc := true }
             else if pyIn "spring-orm" s then { st with orm := true }
             else st)
    else if gt == some "org.hibernate" then
      match at_ with
      | none => .error st
      | some s =>
        if pyIn "hibernate" s then
          let d2 := if optTruthy vt then dset st.d "hibernate_version" (.vS (vt.getD "")) else st.d
          .ok { st with hibernate := true, d := d2 }
        else
          -- the condition was false through its second conjunct: the chain
          -- continues with the struts test, whose artifact text is known here
          .ok (if pyIn "struts" s then jlStrutsArm st vt else jlDepTail st gt s vt)
    else if gt == some "org.apache.struts" then
      .ok (jlStrutsArm st vt)
    else
      match at_ with
      | none => .error st
      | some s =>
        .ok (if pyIn "struts" s then jlStrutsArm st vt else jlDepTail st gt s vt)
  | _, _ => .ok st

/-- The legacy dependency loop, threading the state and stopping the `try` on
a raise; the dict mutated up to the raise (including a write made earlier in
the raising iteration itself) survives. -/
def jlDepScan (st : JlState) : List PomDep → JlState × Bool
  | [] => (st, false)
  | dep :: rest =>
    match jlDepStep st dep with
    | .ok st2 => jlDepScan st2 rest
    | .error st2 => (st2, true)

/-- Version classification of the legacy pom analysis, from the detected
`spring_framework_version` with the hardcoded thresholds. -/
def jlClassify (d : Attrs) : Attrs :=
  match dget d "spring_framework_version" with
  | some v =>
    if vtruthy v then
      match searchMajorMinor (pyStr v) with
      | some (ma, mi) =>
        let d := dset d "spring_major_version" (.vN ma)
        let d := dset d "spring_minor_version" (.vN mi)
        if ma == 1 || (ma == 2 && mi < 5) then
          dset (dset d "security_priority" (.vS "critical")) "is_very_legacy" (.vB true)
        else if ma == 2 || (ma == 3 && mi < 2) then
          dset (dset d "security_priority" (.vS "high")) "is_legacy" (.vB true)
        else if ma == 3 then
          dset (dset d "security_priority" (.vS "medium")) "is_old" (.vB true)
        else dset d "security_priority" (.vS "low")
      | none => d
    else d
  | none => d

/-- The pom.xml enrichment of `check_java_legacy` inside its `try`: the
properties phase, the dependency loop (setting the five technology flags only
if the loop completed), then the version classification. -/
def jlPomAnalysis (pom : Pom) (d : Attrs) : Attrs :=
  let d := jlPropsPhase pom d
  match pom.dependencies with
  | some deps =>
    let st0 : JlState :=
      { svfd := none, security := false, webmvc := false, orm := false,
        hibernate := false, struts := false, d := d }
    match jlDepScan st0 deps with
    | (st, false) =>
      let d := dset st.d "uses_spring_security" (.vB st.security)
      let d := dset d "uses_spring_webmvc" (.vB st.webmvc)
      let d := dset d "uses_spring_orm" (.vB st.orm)
      let d := dset d "uses_hibernate" (.vB st.hibernate)
      let d := dset d "uses_struts" (.vB st.struts)
      jlClassify d
    | (st, true) => st.d
  | none => jlClassify d

/-- `check_java_legacy(project_path)` (src/core/project_analyzer.py): a
WEB-INF directory plus a web.xml or Spring XML config identifies a legacy
Spring + JSP project; the pom/gradle/web.xml phases enrich the details. -/
def check_java_legacy (fs : FS) : Except Unit (Option String × Attrs) :=
  if !fs.webInfMain && !fs.webInfWebContent then .ok (none, [])
  else
    let webInfPath :=
      if fs.webInfMain then
        pyJoin (pyJoin (pyJoin (pyJoin fs.root "src") "main") "webapp") "WEB-INF"
      else pyJoin (pyJoin fs.root "WebContent") "WEB-INF"
    let hasWebXml := fs.webXmlExists
    let d : Attrs := [("web_inf_path", .vS webInfPath)]
    let (n, d, springXml) := jlScanWalk fs.root 0 d fs.walk
    let d := dset d "jsp_files_count" (.vN n)
    let d := dset d "spring_xml_found" (.vB springXml)
    if hasWebXml || springXml then
      let d :=
        match fs.pom with
        | none => d
        | some pomRes =>
          let d := dset d "is_maven" (.vB true)
          match pomRes with
          | .ok pom => jlPomAnalysis pom d
          | .error _ => d
      let d :=
        match fs.buildGradle with
        | none => d
        | some contentOpt =>
          let d := dset d "is_gradle" (.vB true)
          match contentOpt with
          | some content =>
            match searchGradleSpring content with
            | some v => dset d "spring_framework_version" (.vS v)
            | none => d
          | none => d
      let d :=
        if hasWebXml then
          match fs.webXml with
          | .ok (some s) =>
            if !s.isEmpty then
              let d := dset d "servlet_version" (.vS s)
              match pyFloat s with
              | some q =>
                if q < 5 / 2 then dset d "servlet_very_legacy" (.vB true)
                else if q < 3 then dset d "servlet_legacy" (.vB true)
                else d
              | none => d
            else d
          | .ok none => d
          | .error _ => d
        else d
      .ok (some "java_legacy_spring", d)
    else .ok (none, [])

/-- `check_angular(project_path)` (src/core/project_analyzer.py): angular.json
metadata, then `@angular/core` in package.json decides the match; a version
value retrievable only as `None` raises on the version regex. -/
def check_angular (fs : FS) : Except Unit (Option String × Attrs) :=
  let d : Attrs := []
  let d :=
    match fs.angularJson with
    | some (some data) =>
      if data.projectsIsDict then
        let schema := data.schema.getD ""
        let d := dset d "angular_cli_version"
          (.vS (pyReplace ((pySplit schema '/').getLastD "") ".json" ""))
        if pyIn "15" schema || pyIn "16" schema || pyIn "17" schema || pyIn "18" schema then
          dset d "angular_cli_modern" (.vB true)
        else d
      else d
    | _ => d
  match fs.packageJson with
  | some (some pkg) =>
    let deps := pkg.dependencies
    let dev := pkg.devDependencies
    if (deps.lookup "@angular/core").isSome || (dev.lookup "@angular/core").isSome then
      let av : Option String :=
        match deps.lookup "@angular/core" with
        | some v => if !v.isEmpty then some v else dev.lookup "@angular/core"
        | none => dev.lookup "@angular/core"
      match av with
      | none => .error ()
      | some ver =>
        let d := dset d "angular_core_version" (.vS ver)
        let d :=
          match searchFirstNat ver with
          | some mj =>
            let d := dset d "angular_major_version" (.vN mj)
            let d := if mj ≥ 14 then dset d "supports_standalone" (.vB true) else d
            let d := if mj ≥ 16 then dset d "supports_signals" (.vB true) else d
            if mj ≥ 17 then dset d "new_control_flow" (.vB true) else d
          | none => d
        let d :=
          if (deps.lookup "@angular/material").isSome
              || (dev.lookup "@angular/material").isSome then
            dset d "uses_angular_material" (.vB true)
          else d
        let d :=
          if (deps.lookup "@ngrx/store").isSome || (dev.lookup "@ngrx/store").isSome then
            dset d "uses_ngrx" (.vB true)
          else d
        let d :=
          if (deps.lookup "@angular/pwa").isSome || (dev.lookup "@angular/pwa").isSome then
            dset d "is_pwa" (.vB true)
          else d
        let d :=
          if (deps.lookup "@nguniversal/express-engine").isSome
              || (deps.lookup "@angular/ssr").isSome then
            dset d "has_ssr" (.vB true)
          else d
        .ok (some "angular", d)
    else .ok (none, [])
  | _ => .ok (none, [])

/-- The `.vue`-file walk of the Vue checker, skipping vendored paths. -/
def vueWalkScan (rootPath : String) : List WalkEntry → Bool
  | [] => false
  | e :: rest =>
    let rp := joinComponents rootPath e.dir
    if pyIn "node_modules" rp || pyIn ".git" rp then vueWalkScan rootPath rest
    else if e.files.any (fun f => pyEndsWith f ".vue") then true
    else vueWalkScan rootPath rest

/-- The secondary Vue indicators: a config file, then a `.vue` source file. -/
def vueRest (fs : FS) : Except Unit (Option String × Attrs) :=
  if fs.vueConfig || fs.viteConfig || fs.nuxtConfig then .ok (some "vue", [])
  else if vueWalkScan fs.root fs.walk then .ok (some "vue", [])
  else .ok (none, [])

/-- `check_vue(project_path)` (src/core/project_analyzer.py): `vue` in
package.json dependencies (recording the version value, possibly `None`),
else a Vue/Vite/Nuxt config file, else any `.vue` file outside vendored
directories. -/
def check_vue (fs : FS) : Except Unit (Option String × Attrs) :=
  match fs.packageJson with
  | some (some pkg) =>
    let deps := pkg.dependencies
    let dev := pkg.devDependencies
    if (deps.lookup "vue").isSome || (dev.lookup "vue").isSome then
      let vv : Option String :=
        match deps.lookup "vue" with
        | some v => if !v.isEmpty then some v else dev.lookup "vue"
        | none => dev.lookup "vue"
      let d := dset [] "vue_version" (optText vv)
      let d :=
        if (deps.lookup "nuxt").isSome || (dev.lookup "nuxt").isSome then
          dset d "is_nuxt" (.vB true)
        else d
      .ok (some "vue", d)
    else vueRest fs
  | _ => vueRest fs

/-- `check_gitlab_ci(project_path)` (src/core/project_analyzer.py). -/
def check_gitlab_ci (fs : FS) : Except Unit (Option String × Attrs) :=
  if fs.gitlabCi then .ok (some "gitlab_ci", []) else .ok (none, [])

/-- The ordered checker registry `PROJECT_CHECKERS`
(src/core/project_analyzer.py, lines 995-1002), in the source's order. -/
def PROJECT_CHECKERS : List (FS → Except Unit (Option String × Attrs)) :=
  [check_spring_boot, check_java_legacy, check_angular, check_vue,
   check_python, check_gitlab_ci]

/-- The checker loop of `analyze_project` over the outcome of each probe: a
caught exception and a `None` (or empty) type both continue with the next
probe; the first truthy type wins, its details merged into the empty result
dict, and the loop breaks. -/
def analyzeOutcomes : List (Except Unit (Option String × Attrs)) → Option String × Attrs
  | [] => (none, [])
  | .error _ :: rest => analyzeOutcomes rest
  | .ok (none, _) :: rest => analyzeOutcomes rest
  | .ok (some t, d) :: rest =>
    if t.isEmpty then analyzeOutcomes rest else (some t, d)

/-- `analyze_project(project_path)` (src/core/project_analyzer.py): a
non-directory path yields `(None, {})`; otherwise the `PROJECT_CHECKERS` are
run in order with the first-match / exception-skipping loop. -/
def analyze_project (fs : FS) : Option String × Attrs :=
  if fs.isDir then analyzeOutcomes (PROJECT_CHECKERS.map (fun c => c fs))
  else (none, [])

/-- A loaded `.mdc` document as `load_mdc_file` returns it: the optional
frontmatter block and the content body. -/
structure MdcData where
  frontmatter : Option String
  content : String
deriving DecidableEq, Repr

/-- `d.get(k, default)` with a `Val` default (string-typed call sites). -/
def dgetD (d : Attrs) (k : String) (dflt : Val) : Val :=
  match dget d k with
  | some v => v
  | none => dflt

/-- The template registry `PROJECT_TYPES_TEMPLATES`
(src/core/rule_generator.py), in the source's order. -/
def PROJECT_TYPES_TEMPLATES : List (String × String) :=
  [("java_legacy_spring", "java_legacy_spring.mdc"),
   ("springboot", "spring_boot.mdc"),
   ("angular", "angular.mdc"),
   ("vue", "vue.mdc"),
   ("python", "python.mdc"),
   ("gitlab_ci", "gitlab_ci.mdc")]

/-- The `RuleSet` object of src/core/rule_generator.py (its constructor
normalises a falsy `detected_tech` to `{}` and keeps `custom_rules_data`
unused). -/
structure RuleSet where
  project_type : String
  detected_tech : Attrs
  custom_rules_data : Option String
  verbose : Bool

/-- `RuleSet._load_base_template`: template storage is an external
collaborator, so the store maps a template file name to the parsed data
(`none` = file missing or unreadable); an unknown project type or a failed
load degrade to an empty document, with only a verbose warning. -/
def RuleSet.load_base_template (rs : RuleSet) (templates : String → Option MdcData) : MdcData :=
  match PROJECT_TYPES_TEMPLATES.lookup rs.project_type with
  | none => { frontmatter := none, content := "" }
  | some fn =>
    match templates fn with
    | none => { frontmatter := none, content := "" }
    | some data => data

/-- `RuleSet._adapt_rules_for_angular` (src/core/rule_generator.py).  The
narrative text of each appended block is abbreviated here to the block's
leading header line; the predicates, the order of the appended blocks and the
interpolated detected values follow the source exactly.  No theorem below
depends on a block's text. -/
def adaptRulesForAngular (tech : Attrs) (content : String) : String :=
  let versionBlocks : List String :=
    if dtruthy tech "angular_major_version" then
      ["\n# Detectado: Angular " ++ pyStr (dgetD tech "angular_major_version" .vNone)]
      ++ (if dtruthy tech "supports_standalone" then
            ["\n# Símbolos específicos para Angular 14+\n"] else [])
      ++ (if dtruthy tech "supports_signals" then
            ["\n# Símbolos específicos para Angular 16+\n"] else [])
      ++ (if dtruthy tech "new_control_flow" then
            ["\n# Símbolos específicos para Angular 17+\n"] else [])
    else []
  let adaptations := versionBlocks
    ++ (if dtruthy tech "uses_angular_material" then
          ["\n# Ficheros específicos para Angular Material\n"] else [])
    ++ (if dtruthy tech "uses_ngrx" then ["\n# Símbolos específicos para NgRx\n"] else [])
    ++ (if dtruthy tech "is_pwa" then ["\n# Ficheros específicos para PWA\n"] else [])
    ++ (if dtruthy tech "has_ssr" then ["\n# Ficheros específicos para SSR\n"] else [])
  if adaptations.isEmpty then content
  else content ++ "\n" ++ String.intercalate "\n" adaptations

/-- The version-specific branch of the Spring Boot adapter when a full
version string was detected: `major_version == 1 / == 2 / >= 3`.  A missing
(or non-integer) major version raises a `TypeError` on `None >= 3` after the
two equality tests fail, aborting the adaptation (`.error`). -/
def sbVersionBranch (tech : Attrs) : Except Unit (List String) :=
  match dget tech "spring_boot_major_version" with
  | some (.vN n) =>
    if n == 1 then .ok ["\n# ⚠️  ADVERTENCIA: Versión LEGACY detectada\n"]
    else if n == 2 then .ok ["\n# ✅ Versión ESTABLE detectada\n"]
    else if n ≥ 3 then .ok ["\n# 🚀 Versión MODERNA detectada\n"]
    else .ok []
  | _ => .error ()

/-- The detected-feature labels of the Spring Boot adapter, in order. -/
def sbFeatureLabels (tech : Attrs) : List String :=
  (if dtruthy tech "uses_spring_security" then ["Spring Security"] else [])
  ++ (if dtruthy tech "uses_spring_data_jpa" then ["Spring Data JPA"] else [])
  ++ (if dtruthy tech "uses_actuator" then ["Spring Boot Actuator"] else [])
  ++ (if dtruthy tech "uses_webflux" then ["Spring WebFlux"] else [])
  ++ (if dtruthy tech "uses_spring_cloud" then ["Spring Cloud"] else [])
  ++ (if dtruthy tech "database_h2" then ["H2 Database"] else [])
  ++ (if dtruthy tech "database_mysql" then ["MySQL"] else [])
  ++ (if dtruthy tech "database_postgresql" then ["PostgreSQL"] else [])

/-- The security-priority banner text of the Spring Boot adapter
(`{...}.get(security_priority, "")`). -/
def sbPriorityText (tech : Attrs) : String :=
  match dget tech "security_priority" with
  | some (.vS "high") => "🔴 ALTA - Requiere revisión inmediata de seguridad"
  | some (.vS "medium") => "🟡 MEDIA - Aplicar mejores prácticas de seguridad"
  | some (.vS "low") => "🟢 BAJA - Versión moderna con buenas prácticas por defecto"
  | _ => ""

/-- `RuleSet._adapt_rules_for_spring_boot` (src/core/rule_generator.py), with
block texts abbreviated to their header lines (see `adaptRulesForAngular`). -/
def adaptRulesForSpringBoot (tech : Attrs) (content : String) : Except Unit String :=
  let headStep : Except Unit (List String) :=
    if dtruthy tech "spring_boot_version" then
      match sbVersionBranch tech with
      | .ok vb =>
        .ok (["\n# DETECCIÓN AUTOMÁTICA: Spring Boot "
              ++ pyStr (dgetD tech "spring_boot_version" .vNone)] ++ vb)
      | .error e => .error e
    else if dtruthy tech "spring_boot_major_version" then
      .ok ["\n# DETECCIÓN AUTOMÁTICA: Spring Boot "
           ++ pyStr (dgetD tech "spring_boot_major_version" .vNone) ++ ".x"]
    else .ok []
  match headStep with
  | .error e => .error e
  | .ok head =>
    let features := sbFeatureLabels tech
    let featBlock :=
      if !features.isEmpty then
        ["\n# 📦 CARACTERÍSTICAS DETECTADAS: " ++ String.intercalate ", " features ++ "\n"]
      else []
    let prioBlock :=
      if dtruthy tech "security_priority" then
        let t := sbPriorityText tech
        if !t.isEmpty then ["\n# 🛡️  PRIORIDAD DE SEGURIDAD: " ++ t ++ "\n"] else []
      else []
    let versionRules :=
      if dtruthy tech "spring_boot_major_version" then
        if dtruthy tech "is_legacy" then
          ["\n# Reglas CRÍTICAS para Spring Boot 1.x (LEGACY)\n"]
        else if dtruthy tech "is_modern" then
          ["\n# Reglas para Spring Boot 2.x (MODERNO)\n"]
        else if dtruthy tech "is_latest" then
          ["\n# Reglas para Spring Boot 3.x (ÚLTIMO)\n"]
        else []
      else []
    let featureRules :=
      (if dtruthy tech "uses_spring_security" then
        ["\n# Reglas específicas para Spring Security\n"] else [])
      ++ (if dtruthy tech "uses_actuator" then
        ["\n# Reglas para Spring Boot Actuator\n"] else [])
      ++ (if dtruthy tech "uses_spring_data_jpa" then
        ["\n# Reglas para Spring Data JPA\n"] else [])
      ++ (if dtruthy tech "database_h2" && dtruthy tech "h2_console_risk" then
        ["\n# Reglas para H2 Database\n"] else [])
      ++ (if dtruthy tech "uses_webflux" then
        ["\n# Reglas para Spring WebFlux\n"] else [])
      ++ (if dtruthy tech "uses_spring_cloud" then
        ["\n# Reglas para Spring Cloud\n"] else [])
      ++ (if dget tech "security_priority" == some (.vS "high") then
        ["\n# Reglas adicionales para ALTA PRIORIDAD de seguridad\n"] else [])
    let adaptations := head ++ featBlock ++ prioBlock ++ versionRules ++ featureRules
    if adaptations.isEmpty then .ok content
    else .ok (content ++ "\n" ++ String.intercalate "\n" adaptations)

/-- The detected-feature labels of the legacy Java adapter, in order,
including the JSP count entry. -/
def jlFeatureLabels (tech : Attrs) : List String :=
  (if dtruthy tech "uses_spring_security" then ["Spring Security"] else [])
  ++ (if dtruthy tech "uses_spring_webmvc" then ["Spring WebMVC"] else [])
  ++ (if dtruthy tech "uses_spring_orm" then ["Spring ORM"] else [])
  ++ (if dtruthy tech "uses_hibernate" then ["Hibernate ORM"] else [])
  ++ (if dtruthy tech "uses_struts" then ["⚠️ Apache Struts"] else [])
  ++ (if dtruthy tech "uses_log4j" then ["⚠️ Log4j"] else [])
  ++ (if dtruthy tech "database_mysql" then ["MySQL"] else [])
  ++ (if dtruthy tech "database_oracle" then ["Oracle DB"] else [])
  ++ (if dtruthy tech "database_sqlserver" then ["SQL Server"] else [])
  ++ (let n := dgetInt tech "jsp_files_count" 0
      if n > 0 then ["JSP files (" ++ toString n ++ ")"] else [])

/-- The four-way security banner of the legacy Java adapter. -/
def jlPriorityText (tech : Attrs) : String :=
  match dget tech "security_priority" with
  | some (.vS "critical") => "🔴 CRÍTICA - Requiere acción inmediata de seguridad"
  | some (.vS "high") => "🟠 ALTA - Planificar revisión de seguridad urgente"
  | some (.vS "medium") => "🟡 MEDIA - Aplicar mejores prácticas de seguridad"
  | some (.vS "low") => "🟢 BAJA - Mantener prácticas de seguridad actuales"
  | _ => ""

/-- `RuleSet._adapt_rules_for_java_legacy_spring` (src/core/rule_generator.py),
block texts abbreviated to their header lines. -/
def adaptRulesForJavaLegacy (tech : Attrs) (content : String) : String :=
  let head : List String :=
    if dtruthy tech "spring_framework_version" then
      ["\n# DETECCIÓN AUTOMÁTICA: Spring Framework "
       ++ pyStr (dgetD tech "spring_framework_version" .vNone)]
      ++ (if dtruthy tech "is_very_legacy" then
            ["\n# 🔴 ALERTA CRÍTICA: Versión MUY LEGACY detectada"]
          else if dtruthy tech "is_legacy" then
            ["\n# ⚠️ ADVERTENCIA ALTA: Versión LEGACY detectada"]
          else if dtruthy tech "is_old" then
            ["\n# ⚠️ Versión ANTIGUA detectada"]
          else ["\n# ✅ Versión relativamente moderna de Spring Framework"])
    else if dtruthy tech "spring_major_version" then
      ["\n# DETECCIÓN AUTOMÁTICA: Spring Framework "
       ++ pyStr (dgetD tech "spring_major_version" .vNone) ++ ".x"]
    else []
  let features := jlFeatureLabels tech
  let featBlock :=
    if !features.isEmpty then
      ["\n# 📦 TECNOLOGÍAS DETECTADAS: " ++ String.intercalate ", " features ++ "\n"]
    else []
  let prioBlock :=
    if dtruthy tech "security_priority" then
      let t := jlPriorityText tech
      if !t.isEmpty then ["\n# 🛡️ PRIORIDAD DE SEGURIDAD: " ++ t ++ "\n"] else []
    else []
  let servletBlock :=
    if dtruthy tech "servlet_version" then
      ["\n# 📋 SERVLET API: Versión " ++ pyStr (dgetD tech "servlet_version" .vNone)
       ++ " detectada"]
      ++ (if dtruthy tech "servlet_very_legacy" then
            ["\n# ⚠️ Servlet API MUY LEGACY - Revisar configuraciones de seguridad web"]
          else if dtruthy tech "servlet_legacy" then
            ["\n# ⚠️ Servlet API LEGACY - Verificar configuraciones modernas disponibles"]
          else [])
    else []
  let versionRules :=
    if dtruthy tech "spring_major_version" then
      (if dget tech "spring_major_version" == some (.vN 1) then
        ["\n# Reglas CRÍTICAS específicas para Spring Framework 1.x\n"]
      else if dget tech "spring_major_version" == some (.vN 2) then
        ["\n# Reglas para Spring Framework 2.x\n"]
      else if dget tech "spring_major_version" == some (.vN 3) then
        ["\n# Reglas para Spring Framework 3.x\n"]
      else [])
    else []
  let featureRules :=
    (if dtruthy tech "uses_spring_security" then
      ["\n# Reglas específicas para Spring Security Legacy\n"] else [])
    ++ (if dtruthy tech "uses_struts" then
      ["\n# Reglas CRÍTICAS para Apache Struts "
       ++ pyStr (dgetD tech "struts_version" (.vS "")) ++ "\n"] else [])
    ++ (if dtruthy tech "uses_hibernate" then
      ["\n# Reglas para Hibernate ORM "
       ++ pyStr (dgetD tech "hibernate_version" (.vS "")) ++ "\n"] else [])
    ++ (if dtruthy tech "uses_log4j" then
        (if dtruthy tech "log4j_security_risk" then
          ["\n# Reglas CRÍTICAS para Log4j "
           ++ pyStr (dgetD tech "log4j_version" (.vS "")) ++ " (VULNERABILIDAD CONOCIDA)\n"]
        else [])
      else [])
    ++ (let n := dgetInt tech "jsp_files_count" 0
        if n > 0 then
          ["\n# Reglas específicas para JSP (" ++ toString n ++ " archivos detectados)\n"]
        else [])
    ++ (let dbs :=
          (if dtruthy tech "database_mysql" then ["MySQL"] else [])
          ++ (if dtruthy tech "database_oracle" then ["Oracle"] else [])
          ++ (if dtruthy tech "database_sqlserver" then ["SQL Server"] else [])
        if !dbs.isEmpty then
          ["\n# Reglas específicas para bases de datos: " ++ String.intercalate ", " dbs ++ "\n"]
        else [])
    ++ (if dtruthy tech "is_maven" then ["\n# Reglas para proyecto Maven\n"] else [])
    ++ (if dtruthy tech "is_gradle" then ["\n# Reglas para proyecto Gradle\n"] else [])
    ++ (if dget tech "security_priority" == some (.vS "critical") then
      ["\n# Reglas adicionales para prioridad CRÍTICA\n"] else [])
  let adaptations := head ++ featBlock ++ prioBlock ++ servletBlock ++ versionRules ++ featureRules
  if adaptations.isEmpty then content
  else content ++ "\n" ++ String.intercalate "\n" adaptations

/-- The detection-source label map of the Python adapter
(`source_labels.get(python_source, python_source)`; an unmapped or missing
value is rendered as Python renders it in the f-string). -/
def pySourceLabel (tech : Attrs) : String :=
  match dget tech "python_source" with
  | some (.vS "venv") => "entorno virtual"
  | some (.vS "pyenv") => "archivo .python-version (pyenv)"
  | some (.vS "pyproject") => "pyproject.toml"
  | some (.vS "pipfile") => "Pipfile"
  | some (.vS "setup.py") => "setup.py"
  | some (.vS "system") => "intérprete del sistema"
  | some v => pyStr v
  | none => "None"

/-- The `version_info` banner of the Python adapter: version, path, source,
venv and the version warnings (`python_minor and python_minor < 8` is a
truthiness-guarded comparison, so a zero minor skips both warnings). -/
def pyVersionInfo (tech : Attrs) : String :=
  let base := "# 🐍 PYTHON: Versión " ++ pyStr (dgetD tech "python_version" .vNone)
  let base :=
    if dtruthy tech "python_path" then
      base ++ "\n# 📍 RUTA: " ++ pyStr (dgetD tech "python_path" .vNone)
    else base
  let base := base ++ "\n# 🔧 FUENTE: " ++ pySourceLabel tech
  let base :=
    if dtruthy tech "is_venv" && dtruthy tech "venv_path" then
      base ++ "\n# 📁 VENV: " ++ pyStr (dgetD tech "venv_path" .vNone)
    else base
  let mj := dget tech "python_major_version"
  let mnN :=
    match dget tech "python_minor_version" with
    | some (.vN n) => n
    | _ => 0
  if mj == some (.vN 2) then
    base ++ "\n# ⚠️ ADVERTENCIA: Python 2.x está OBSOLETO. Migrar a Python 3.x urgentemente."
  else if mj == some (.vN 3) && mnN != 0 && mnN < 8 then
    base ++ "\n# ⚠️ ADVERTENCIA: Python 3." ++ toString mnN
      ++ " tiene soporte limitado. Considerar actualizar."
  else if mj == some (.vN 3) && mnN != 0 && mnN ≥ 11 then
    base ++ "\n# ✅ Python 3." ++ toString mnN
      ++ " es una versión moderna con mejoras de rendimiento."
  else base

/-- The three-way security banner of the Python adapter. -/
def pyPriorityText (tech : Attrs) : String :=
  match dget tech "security_priority" with
  | some (.vS "high") => "🔴 ALTA - Configuraciones inseguras detectadas"
  | some (.vS "medium") => "🟡 MEDIA - Revisar dependencias y configuraciones"
  | some (.vS "low") => "🟢 BAJA - Configuración estándar detectada"
  | _ => ""

/-- `RuleSet._adapt_rules_for_python` (src/core/rule_generator.py), block
texts abbreviated to their header lines. -/
def adaptRulesForPython (tech : Attrs) (content : String) : String :=
  let fw := dgetList tech "frameworks_detected"
  let ind := dgetList tech "python_indicators"
  let head : List String :=
    if !fw.isEmpty || !ind.isEmpty || dtruthy tech "python_version" then
      ["\n# DETECCIÓN AUTOMÁTICA: Proyecto Python"]
      ++ (if dtruthy tech "python_version" then [pyVersionInfo tech] else [])
      ++ (if !fw.isEmpty then
            ["\n# 📦 FRAMEWORKS DETECTADOS: " ++ String.intercalate ", " fw ++ "\n"] else [])
      ++ (if !ind.isEmpty then
            ["\n# 🔍 INDICADORES ENCONTRADOS: " ++ String.intercalate ", " ind] else [])
    else []
  let prioBlock :=
    if dtruthy tech "security_priority" then
      let t := pyPriorityText tech
      if !t.isEmpty then ["\n# 🛡️ PRIORIDAD DE SEGURIDAD: " ++ t ++ "\n"] else []
    else []
  let djangoBlocks :=
    if dtruthy tech "is_django" then
      ["\n# Reglas específicas para Django "
       ++ pyStr (dgetD tech "django_version" (.vS "versión no detectada")) ++ "\n"]
      ++ (if dtruthy tech "debug_enabled" then
            ["\n# ADVERTENCIA: DEBUG habilitado detectado\n"] else [])
      ++ (if dtruthy tech "hardcoded_secret_key" then
            ["\n# CRÍTICO: SECRET_KEY hardcodeado detectado\n"] else [])
      ++ (if dtruthy tech "database_sqlite" then
            ["\n# Base de datos SQLite detectada\n"]
          else if dtruthy tech "database_postgresql" then
            ["\n# Base de datos PostgreSQL detectada\n"]
          else if dtruthy tech "database_mysql" then
            ["\n# Base de datos MySQL detectada\n"]
          else [])
    else []
  let flaskBlocks :=
    if dtruthy tech "is_flask" then
      ["\n# Reglas específicas para Flask "
       ++ pyStr (dgetD tech "flask_version" (.vS "versión no detectada")) ++ "\n"]
      ++ (if dtruthy tech "debug_enabled" then
            ["\n# ADVERTENCIA: Debug mode detectado en Flask\n"] else [])
    else []
  let fastapiBlocks :=
    if dtruthy tech "is_fastapi" then
      ["\n# Reglas específicas para FastAPI "
       ++ pyStr (dgetD tech "fastapi_version" (.vS "versión no detectada")) ++ "\n"]
    else []
  let pkgBlocks :=
    (if dtruthy tech "is_poetry" then ["\n# Proyecto Poetry detectado\n"] else [])
    ++ (if dtruthy tech "is_pipenv" then ["\n# Proyecto Pipenv detectado\n"] else [])
  let reqBlocks :=
    if !(dgetList tech "requirements").isEmpty then
      (let risky := dgetList tech "risky_packages"
       if !risky.isEmpty then
         ["\n# ADVERTENCIA: Paquetes de riesgo detectados: "
          ++ String.intercalate ", " risky ++ "\n"]
       else [])
    else []
  let serverBlocks :=
    (if dtruthy tech "has_wsgi" then ["\n# Configuración WSGI detectada\n"] else [])
    ++ (if dtruthy tech "has_asgi" then ["\n# Configuración ASGI detectada\n"] else [])
    ++ (if dtruthy tech "has_pytest" then ["\n# Framework de testing Pytest detectado\n"] else [])
    ++ (if dtruthy tech "has_tox" then ["\n# Tox detectado para testing\n"] else [])
    ++ (if dtruthy tech "has_docker" then ["\n# Docker detectado\n"] else [])
  let adaptations := head ++ prioBlock ++ djangoBlocks ++ flaskBlocks ++ fastapiBlocks
    ++ pkgBlocks ++ reqBlocks ++ serverBlocks
  if adaptations.isEmpty then content
  else content ++ "\n" ++ String.intercalate "\n" adaptations

/-- `RuleSet._adapt_rules` (src/core/rule_generator.py, lines 974-1001): an
empty detection dict returns the base content untouched, then the dispatch on
the project type — any type other than the four adapted ones falls through to
the unchanged content.  Only the Spring Boot adapter can raise (the
`None >= 3` comparison), so only it carries the `Except` layer. -/
def RuleSet.adapt_rules (rs : RuleSet) (base : String) : Except Unit String :=
  if rs.detected_tech.isEmpty then .ok base
  else if rs.project_type == "angular" then .ok (adaptRulesForAngular rs.detected_tech base)
  else if rs.project_type == "springboot" then adaptRulesForSpringBoot rs.detected_tech base
  else if rs.project_type == "java_legacy_spring" then
    .ok (adaptRulesForJavaLegacy rs.detected_tech base)
  else if rs.project_type == "python" then .ok (adaptRulesForPython rs.detected_tech base)
  else .ok base

/-- `RuleSet.generate` (src/core/rule_generator.py, lines 1003-1017): load
the base template, adapt its content, return frontmatter plus adapted
content.  The caller-supplied custom rules are never consulted (the source
carries a TODO where the merge was meant to happen). -/
def RuleSet.generate (rs : RuleSet) (templates : String → Option MdcData) :
    Except Unit MdcData :=
  let base := rs.load_base_template templates
  match rs.adapt_rules base.content with
  | .ok adapted => .ok { frontmatter := base.frontmatter, content := adapted }
  | .error e => .error e

/-- `generate_rules(project_type, detected_tech, custom_rules_data, verbose)`
(src/core/rule_generator.py): `None` for a falsy project type, otherwise the
generated rules (`.error` = an exception escaping to the caller). -/
def generate_rules (project_type : String) (detected_tech : Attrs)
    (custom_rules_data : Option String) (verbose : Bool)
    (templates : String → Option MdcData) : Option (Except Unit MdcData) :=
  if project_type.isEmpty then none
  else some ((RuleSet.mk project_type detected_tech custom_rules_data verbose).generate templates)

/-- Serialisation performed by `save_mdc_file` on a dict with a frontmatter
key: a truthy frontmatter is wrapped in the three-dash sentinels, then the
content follows. -/
def mdcSerialize (data : MdcData) : String :=
  match data.frontmatter with
  | some fm =>
    if !fm.isEmpty then "---\n" ++ fm ++ "\n---\n\n" ++ data.content else data.content
  | none => data.content

/-- The I/O outcome of one `save_mdc_file` call: success, a failure before
the target file is touched (directory creation or open raised), or a failure
after `k` characters were written. -/
inductive WriteOutcome where
  | wOk
  | wFailDir
  | wFailAfter (k : Nat)
deriving DecidableEq, Repr

/-- `save_mdc_file(file_path, data)` (src/core/utils.py) under an explicit
I/O outcome.  Opening with mode `'w'` truncates the target before writing, so
a failure after `k` characters leaves the first `k` characters of the
serialised document on disk; a failure before the open leaves the previous
content (`prior`).  Returns the source's boolean success flag together with
the resulting on-disk content of the target path. -/
def save_mdc_file (outcome : WriteOutcome) (prior : Option String) (data : MdcData) :
    Bool × Option String :=
  let full := mdcSerialize data
  match outcome with
  | .wOk => (true, some full)
  | .wFailDir => (false, prior)
  | .wFailAfter k => (false, some (String.mk (full.toList.take k)))

/-- The structured result dict every tool of src/mcp_tools.py returns across
the transport boundary; absent keys are `none` / `[]`. -/
structure ToolResult where
  success : Bool
  error : Option String := none
  project_path : Option String := none
  project_type : Option String := none
  suggestion : Option String := none
  message : Option String := none
  output_file : Option String := none
  technologies_detected : List String := []
  detected : Attrs := []
  techDetails : Attrs := []
  outFileSize : Option Nat := none
  outRelPath : Option String := none
deriving DecidableEq, Repr

/-- The invalid-path error message shared by the tools
(`f"La ruta '{path}' no existe o no es un directorio"`). -/
def invalidPathMsg (path : String) : String :=
  "La ruta '" ++ path ++ "' no existe o no es un directorio"

/-- `analyze_project_tool(project_path, verbose)` (src/mcp_tools.py).  The
path argument is the already resolved absolute path
(`get_project_path_from_context` resolves it from the argument, the
`CURSOR_WORKSPACE` variable or the working directory — host environment
concerns outside the embedded core). -/
def analyze_project_tool (path : String) (fs : FS) : ToolResult :=
  if !fs.isDir then
    { success := false, error := some (invalidPathMsg path), project_path := some path }
  else
    let (pt, d) := analyze_project fs
    if !optTruthy pt then
      { success := false,
        error := some "No se pudo detectar el tipo de proyecto automáticamente",
        project_path := some path,
        suggestion := some "Intenta especificar el tipo manualmente o verifica que el proyecto tenga archivos de configuración reconocibles" }
    else
      { success := true, project_path := some path, project_type := some (pt.getD ""),
        detected := d,
        message := some ("✅ Proyecto detectado: " ++ pt.getD "") }

/-- The per-type `tech_info["details"]` mapping of `detect_technology_tool`:
a truthiness-guarded copy of the presentation-relevant keys. -/
def techInfoDetails (pt : String) (d : Attrs) : Attrs :=
  if pt == "springboot" then
    let t : Attrs := []
    let t := if dtruthy d "spring_boot_version" then
      dset t "version" (dgetD d "spring_boot_version" .vNone) else t
    let t := if dtruthy d "uses_spring_security" then dset t "spring_security" (.vB true) else t
    let t := if dtruthy d "uses_spring_data_jpa" then dset t "spring_data_jpa" (.vB true) else t
    if dtruthy d "uses_actuator" then dset t "actuator" (.vB true) else t
  else if pt == "angular" then
    let t : Attrs := []
    let t := if dtruthy d "angular_major_version" then
      dset t "version" (dgetD d "angular_major_version" .vNone) else t
    let t := if dtruthy d "supports_standalone" then
      dset t "standalone_components" (.vB true) else t
    if dtruthy d "supports_signals" then dset t "signals_api" (.vB true) else t
  else if pt == "python" then
    let t : Attrs := []
    let t := if dtruthy d "python_version" then
      dset t "python_version" (dgetD d "python_version" .vNone) else t
    let t := if dtruthy d "python_path" then
      dset t "python_path" (dgetD d "python_path" .vNone) else t
    let t := if dtruthy d "python_source" then
      dset t "python_source" (dgetD d "python_source" .vNone) else t
    let t := if dtruthy d "is_venv" then dset t "is_venv" (dgetD d "is_venv" .vNone) else t
    let t := if dtruthy d "venv_path" then
      dset t "venv_path" (dgetD d "venv_path" .vNone) else t
    let t := if dtruthy d "frameworks_detected" then
      dset t "frameworks" (dgetD d "frameworks_detected" .vNone) else t
    let t := if dtruthy d "is_django" then dset t "django" (.vB true) else t
    let t := if dtruthy d "is_flask" then dset t "flask" (.vB true) else t
    if dtruthy d "is_fastapi" then dset t "fastapi" (.vB true) else t
  else if pt == "java_legacy_spring" then
    let t : Attrs := []
    let t := if dtruthy d "spring_framework_version" then
      dset t "spring_version" (dgetD d "spring_framework_version" .vNone) else t
    let t := if dtruthy d "security_priority" then
      dset t "security_priority" (dgetD d "security_priority" .vNone) else t
    if dtruthy d "jsp_files_count" then
      dset t "jsp_files" (dgetD d "jsp_files_count" .vNone) else t
  else []

/-- `detect_technology_tool(project_path)` (src/mcp_tools.py): detection-only,
formatting the detected dict into the per-type details view. -/
def detect_technology_tool (path : String) (fs : FS) : ToolResult :=
  if !fs.isDir then
    { success := false, error := some (invalidPathMsg path) }
  else
    let (pt, d) := analyze_project fs
    if !optTruthy pt then
      { success := false, error := some "No se detectaron tecnologías reconocidas",
        project_path := some path }
    else
      { success := true, project_path := some path, project_type := some (pt.getD ""),
        techDetails := techInfoDetails (pt.getD "") d, detected := d }

/-- The human-readable technology summary `generate_rules_tool` builds on a
successful write, each entry guarded by truthiness of the detected value. -/
def techSummary (d : Attrs) : List String :=
  if d.isEmpty then []
  else
    (if dtruthy d "spring_boot_version" then
      ["Spring Boot " ++ pyStr (dgetD d "spring_boot_version" .vNone)] else [])
    ++ (if dtruthy d "angular_major_version" then
      ["Angular " ++ pyStr (dgetD d "angular_major_version" .vNone)] else [])
    ++ (if dtruthy d "frameworks_detected" then dgetList d "frameworks_detected" else [])
    ++ (if dtruthy d "spring_framework_version" then
      ["Spring Framework " ++ pyStr (dgetD d "spring_framework_version" .vNone)] else [])

/-- The external collaborators of one `generate_rules_tool` call: the custom
rules file (existence and parsed load result), the template store, the write
outcome and the previous on-disk content of the output path. -/
structure GenEnv where
  customExists : Bool
  customLoad : Option MdcData
  templates : String → Option MdcData
  writeOutcome : WriteOutcome
  prior : Option String

/-- `generate_rules_tool(project_path, output_filename, custom_rules_path,
verbose, project_type)` (src/mcp_tools.py): validate the path, resolve the
project type (detection unless overridden), optionally load the custom rules
file (whose content is passed to — and ignored by — the generator), generate,
enforce the `.mdc` extension, write under `<path>/.cursor/rules/`, and return
the structured result.  The second component is the resulting on-disk content
at the output path (the call's only filesystem effect); an exception escaping
the generator is converted by the enclosing `try` into the generic structured
error. -/
def generate_rules_tool (path : String) (fs : FS) (output_filename : String)
    (custom_rules_path : Option String) (verbose : Bool) (project_type : Option String)
    (env : GenEnv) : ToolResult × Option String :=
  if !fs.isDir then
    ({ success := false, error := some (invalidPathMsg path), project_path := some path },
     env.prior)
  else
    let (dtypeO, dtech) :=
      if optTruthy project_type then (project_type, ([] : Attrs))
      else analyze_project fs
    if !optTruthy dtypeO then
      ({ success := false, error := some "No se pudo detectar el tipo de proyecto",
         project_path := some path,
         suggestion := some "Especifica el tipo de proyecto manualmente con el parámetro 'project_type'" },
       env.prior)
    else
      let detected_type := dtypeO.getD ""
      let customStep : Except ToolResult (Option String) :=
        match custom_rules_path with
        | some p =>
          if !p.isEmpty then
            if env.customExists then
              match env.customLoad with
              | some data => .ok (some data.content)
              | none => .ok none
            else
              .error { success := false,
                       error := some ("Archivo de reglas personalizadas no encontrado: " ++ p),
                       project_path := some path }
          else .ok none
        | none => .ok none
      match customStep with
      | .error r => (r, env.prior)
      | .ok custom_rules =>
        match generate_rules detected_type dtech custom_rules verbose env.templates with
        | some (.error _) =>
          ({ success := false, error := some "Error durante la generación de reglas",
             project_path := some path }, env.prior)
        | none =>
          ({ success := false,
             error := some ("No se pudieron generar reglas para el tipo '"
               ++ detected_type ++ "'"),
             project_path := some path, project_type := some detected_type }, env.prior)
        | some (.ok final_rules) =>
          let fname :=
            if pyEndsWith output_filename ".mdc" then output_filename
            else output_filename ++ ".mdc"
          let output_path := pyJoin (pyJoin (pyJoin path ".cursor") "rules") fname
          let (okb, fileState) := save_mdc_file env.writeOutcome env.prior final_rules
          if okb then
            let summary := techSummary dtech
            ({ success := true, project_path := some path,
               project_type := some detected_type,
               output_file := some output_path,
               technologies_detected :=
                 if summary.isEmpty then ["Análisis básico completado"] else summary,
               message := some ("✅ Reglas generadas exitosamente en: " ++ output_path),
               outFileSize := fileState.map String.length,
               outRelPath := some (pyJoin (pyJoin ".cursor" "rules") fname) },
             fileState)
          else
            ({ success := false,
               error := some ("No se pudo escribir el archivo en: " ++ output_path),
               project_path := some path, project_type := some detected_type },
             fileState)

/-! ### Shared lemmas about the dict model and the substring scanner -/

theorem find?_map_set (d : Attrs) (k : String) (v : Val)
    (h : d.any (fun p => p.1 == k) = true) :
    (d.map (fun p => if p.1 == k then (k, v) else p)).find? (fun p => p.1 == k)
      = some (k, v) := by
  induction d with
  | nil => simp at h
  | cons p rest ih =>
    simp only [List.any_cons, Bool.or_eq_true] at h
    by_cases hp : (p.1 == k) = true
    · simp [List.find?, hp]
    · have hr := h.resolve_left hp
      have hpf : (p.1 == k) = false := by simpa using hp
      simp only [List.map_cons, List.find?, hpf, if_neg hp]
      simp only [Bool.false_eq_true, if_false, hpf]
      exact ih hr

theorem find?_append_new (d : Attrs) (k : String) (v : Val)
    (h : d.any (fun p => p.1 == k) = false) :
    (d ++ [(k, v)]).find? (fun p => p.1 == k) = some (k, v) := by
  induction d with
  | nil => simp [List.find?]
  | cons p rest ih =>
    simp only [List.any_cons, Bool.or_eq_false_iff] at h
    simp only [List.cons_append, List.find?, h.1]
    exact ih h.2

theorem dget_dset_self (d : Attrs) (k : String) (v : Val) :
    dget (dset d k v) k = some v := by
  unfold dset dget
  by_cases h : d.any (fun p => p.1 == k) = true
  · rw [if_pos h, find?_map_set d k v h]
  · have hf : d.any (fun p => p.1 == k) = false := by
      cases hx : d.any (fun p => p.1 == k) with
      | true => exact absurd hx h
      | false => rfl
    rw [if_neg h, find?_append_new d k v hf]

theorem find?_map_set_ne (d : Attrs) (k k2 : String) (v : Val) (hne : k ≠ k2) :
    (d.map (fun p => if p.1 == k then (k, v) else p)).find? (fun p => p.1 == k2)
      = d.find? (fun p => p.1 == k2) := by
  induction d with
  | nil => simp
  | cons p rest ih =>
    by_cases hp : (p.1 == k) = true
    · have hp2 : (p.1 == k2) = false := by
        have : p.1 = k := by simpa using hp
        simp [this, hne]
      simp only [List.map_cons, List.find?, if_pos hp, hp2]
      have hk2 : ((k, v).1 == k2) = false := by simp [hne]
      simp only [hk2]
      exact ih
    · simp only [List.map_cons, List.find?, if_neg hp]
      by_cases hq : (p.1 == k2) = true
      · simp [hq]
      · simp only [Bool.not_eq_true] at hq
        simp only [hq]
        exact ih

theorem dget_dset_ne (d : Attrs) (k k2 : String) (v : Val) (hne : k ≠ k2) :
    dget (dset d k v) k2 = dget d k2 := by
  unfold dset dget
  by_cases h : d.any (fun p => p.1 == k) = true
  · rw [if_pos h, find?_map_set_ne d k k2 v hne]
  · rw [if_neg h, List.find?_append]
    have hkk : (k == k2) = false := by simp [hne]
    have : ([(k, v)].find? (fun p => p.1 == k2)) = none := by simp [List.find?, hkk]
    rw [this]
    cases d.find? (fun p => p.1 == k2) <;> rfl

theorem listStarts_self_append (l rest : List Char) : listStarts l (l ++ rest) = true := by
  induction l with
  | nil => rfl
  | cons c cs ih => simp [listStarts, ih]

theorem listHas_append_mid (pre n post : List Char) :
    listHas n (pre ++ (n ++ post)) = true := by
  induction pre with
  | nil =>
    cases hn : n ++ post with
    | nil =>
      have : n = [] := by
        cases n with
        | nil => rfl
        | cons a as => simp at hn
      simp [this, listHas]
    | cons c cs => simp [listHas, ← hn, listStarts_self_append]
  | cons p ps ih => simp [listHas, ih]

theorem pyIn_surround (n pre post : String) : pyIn n (pre ++ n ++ post) = true := by
  unfold pyIn
  have : (pre ++ n ++ post).toList = pre.toList ++ (n.toList ++ post.toList) := by
    simp [String.toList, String.data_append]
  rw [this]
  exact listHas_append_mid pre.toList n.toList post.toList

/-! ### Concrete filesystem fixtures for witnesses -/

/-- A subprocess environment in which nothing exists and every invocation
raises. -/
def emptyPyEnv : PyEnv :=
  { venvPython := fun _ => false, run := fun _ _ => .exc }

/-- The filesystem of an existing but empty project directory: no marker
file of any probe is present. -/
def emptyFS : FS where
  root := "/proj"
  isDir := true
  pom := none
  buildGradle := none
  appProps := false
  appYml := false
  appYaml := false
  webInfMain := false
  webInfWebContent := false
  webXmlExists := false
  webXml := .ok none
  angularJson := none
  packageJson := none
  vueConfig := false
  viteConfig := false
  nuxtConfig := false
  gitlabCi := false
  walk := []
  readFile := fun _ => none
  requirementsTxt := none
  setupPyFile := none
  pyprojectToml := none
  pipfileFile := none
  poetryLock := false
  managePy := false
  appPy := none
  mainPy := none
  pythonVersionFile := none
  wsgiPy := false
  asgiPy := false
  pytestIni := false
  toxIni := false
  conftestPy := false
  dockerfile := false
  pyEnv := emptyPyEnv

/-- A checker outcome the loop of `analyze_project` treats as a non-match: a
caught exception, a `None` project type, or a falsy (empty) type string. -/
def nonMatch : Except Unit (Option String × Attrs) → Bool
  | .error _ => true
  | .ok (none, _) => true
  | .ok (some t, _) => t.isEmpty

/-! ### Claims -/

/-- C1.  `analyze_project` iterates the fixed ordered `PROJECT_CHECKERS`
list; the first probe outcome with a truthy category wins and its attributes
become the result, regardless of everything after it (no further probe
influences the result); when no probe matches the result is `(None, {})`; and
a non-directory root also yields `(None, {})`. -/
theorem claim_C1_first_match_wins :
    (∀ (xs ys : List (Except Unit (Option String × Attrs))) (c : String) (d : Attrs),
      (∀ o ∈ xs, nonMatch o = true) → c ≠ "" →
      analyzeOutcomes (xs ++ .ok (some c, d) :: ys) = (some c, d)) ∧
    (∀ xs, (∀ o ∈ xs, nonMatch o = true) → analyzeOutcomes xs = (none, [])) ∧
    (∀ fs : FS, analyze_project fs =
      if fs.isDir then analyzeOutcomes (PROJECT_CHECKERS.map (fun c => c fs))
      else (none, [])) := by
  refine ⟨?_, ?_, fun fs => rfl⟩
  · intro xs ys c d hxs hc
    induction xs with
    | nil =>
      have hce : c.isEmpty = false := by
        cases hcc : c.isEmpty
        · rfl
        · exact absurd (by simpa [String.isEmpty_iff] using hcc) hc
      simp [analyzeOutcomes, hce]
    | cons o rest ih =>
      have ho := hxs o (by simp)
      have hrest : ∀ o ∈ rest, nonMatch o = true := fun o hmem => hxs o (by simp [hmem])
      cases o with
      | error e => simpa [analyzeOutcomes] using ih hrest
      | ok r =>
        obtain ⟨t, a⟩ := r
        cases t with
        | none => simpa [analyzeOutcomes] using ih hrest
        | some s =>
          have hs : s.isEmpty = true := by simpa [nonMatch] using ho
          simpa [analyzeOutcomes, hs] using ih hrest
  · intro xs hxs
    induction xs with
    | nil => rfl
    | cons o rest ih =>
      have ho := hxs o (by simp)
      have hrest : ∀ o ∈ rest, nonMatch o = true := fun o hmem => hxs o (by simp [hmem])
      cases o with
      | error e => simpa [analyzeOutcomes] using ih hrest
      | ok r =>
        obtain ⟨t, a⟩ := r
        cases t with
        | none => simpa [analyzeOutcomes] using ih hrest
        | some s =>
          have hs : s.isEmpty = true := by simpa [nonMatch] using ho
          simpa [analyzeOutcomes, hs] using ih hrest

/-- Witness for C1 at concrete outcome lists and a concrete filesystem. -/
theorem claim_C1_witness :
    analyzeOutcomes [.ok (none, []), .ok (some "python", [("is_django", .vB true)]),
        .error ()]
      = (some "python", [("is_django", .vB true)]) ∧
    analyzeOutcomes [.error (), .ok (none, [("x", .vB true)])] = (none, []) := by
  constructor
  · exact claim_C1_first_match_wins.1 [.ok (none, [])] [.error ()] "python"
      [("is_django", .vB true)] (by intro o ho; fin_cases ho; all_goals rfl) (by decide)
  · exact claim_C1_first_match_wins.2.1 [.error (), .ok (none, [("x", .vB true)])]
      (by intro o ho; fin_cases ho; all_goals rfl)

/-- C2.  A probe outcome that is a raised exception is treated by the loop of
`analyze_project` exactly as if the probe were absent: the pipeline continues
with the next probe in order, so any later (lower-priority) match is still
returned; and on a directory root `analyze_project` is exactly that loop over
the ordered `PROJECT_CHECKERS` outcomes. -/
theorem claim_C2_probe_exception_skipped :
    (∀ (xs ys : List (Except Unit (Option String × Attrs))) (e : Unit),
      analyzeOutcomes (xs ++ .error e :: ys) = analyzeOutcomes (xs ++ ys)) ∧
    (∀ fs : FS, fs.isDir = true →
      analyze_project fs = analyzeOutcomes (PROJECT_CHECKERS.map (fun c => c fs))) := by
  constructor
  · intro xs ys e
    induction xs with
    | nil => rfl
    | cons o rest ih =>
      cases o with
      | error e2 => simpa [analyzeOutcomes] using ih
      | ok r =>
        obtain ⟨t, a⟩ := r
        cases t with
        | none => simpa [analyzeOutcomes] using ih
        | some s =>
          cases hs : s.isEmpty <;> simp [analyzeOutcomes, hs, ih]
  · intro fs h
    simp [analyze_project, h]

/-- Witness for C2: a raising first probe does not mask the later Vue match,
and the loop equation holds at a concrete directory. -/
theorem claim_C2_witness :
    analyzeOutcomes [.error (), .ok (some "vue", [("is_nuxt", .vB true)])]
      = analyzeOutcomes [.ok (some "vue", [("is_nuxt", .vB true)])] ∧
    analyze_project emptyFS = analyzeOutcomes (PROJECT_CHECKERS.map (fun c => c emptyFS)) :=
  ⟨claim_C2_probe_exception_skipped.1 [] [.ok (some "vue", [("is_nuxt", .vB true)])] (),
   claim_C2_probe_exception_skipped.2 emptyFS rfl⟩

/-- C4.  The adaptation step `RuleSet._adapt_rules` is a pure function of the
`(category, attributes, base document)` triple: two rule sets agreeing on
project type and detected attributes adapt any document identically (the
other constructor arguments — custom rules, verbosity — cannot influence the
output, and there is no I/O or randomness in the embedding); a category
outside the four adapted ones is the identity transform; and an empty
attribute dict is the identity transform for every category. -/
theorem claim_C4_adaptation_pure_identity :
    (∀ (rs1 rs2 : RuleSet) (base : String),
      rs1.project_type = rs2.project_type → rs1.detected_tech = rs2.detected_tech →
      rs1.adapt_rules base = rs2.adapt_rules base) ∧
    (∀ (pt : String) (tech : Attrs) (custom : Option String) (vb : Bool) (base : String),
      pt ∉ ["angular", "springboot", "java_legacy_spring", "python"] →
      RuleSet.adapt_rules ⟨pt, tech, custom, vb⟩ base = .ok base) ∧
    (∀ (pt : String) (custom : Option String) (vb : Bool) (base : String),
      RuleSet.adapt_rules ⟨pt, [], custom, vb⟩ base = .ok base) := by
  refine ⟨?_, ?_, ?_⟩
  · rintro ⟨pt1, dt1, c1, v1⟩ ⟨pt2, dt2, c2, v2⟩ base h1 h2
    simp only at h1 h2
    subst h1; subst h2
    rfl
  · intro pt tech custom vb base h
    simp only [List.mem_cons, List.mem_singleton, not_or] at h
    obtain ⟨ha, hs, hj, hp, -⟩ := h
    unfold RuleSet.adapt_rules
    simp only
    have hba : (pt == "angular") = false := by simp [ha]
    have hbs : (pt == "springboot") = false := by simp [hs]
    have hbj : (pt == "java_legacy_spring") = false := by simp [hj]
    have hbp : (pt == "python") = false := by simp [hp]
    simp [hba, hbs, hbj, hbp]
  · intro pt custom vb base
    unfold RuleSet.adapt_rules
    simp

/-- Witness for C4: the purity part at two rule sets differing only in the
ignored fields, the identity part at the (known but unadapted) `vue` and
`gitlab_ci` categories, and the empty-dict identity at `springboot`. -/
theorem claim_C4_witness :
    RuleSet.adapt_rules ⟨"vue", [("is_nuxt", .vB true)], none, false⟩ "BODY"
      = RuleSet.adapt_rules ⟨"vue", [("is_nuxt", .vB true)], some "extra", true⟩ "BODY" ∧
    RuleSet.adapt_rules ⟨"gitlab_ci", [("x", .vB true)], none, false⟩ "BODY" = .ok "BODY" ∧
    RuleSet.adapt_rules ⟨"springboot", [], none, false⟩ "BODY" = .ok "BODY" :=
  ⟨claim_C4_adaptation_pure_identity.1 _ _ "BODY" rfl rfl,
   claim_C4_adaptation_pure_identity.2.1 "gitlab_ci" [("x", .vB true)] none false "BODY"
     (by decide),
   claim_C4_adaptation_pure_identity.2.2 "springboot" none false "BODY"⟩

/-- A non-existing (or non-directory) supplied path. -/
def badFS : FS := { emptyFS with isDir := false }

/-- A generation environment with no custom rules, no stored templates, and a
succeeding write. -/
def env0 : GenEnv :=
  { customExists := false, customLoad := none, templates := fun _ => none,
    writeOutcome := .wOk, prior := none }

/-- C5.  For a supplied path that does not exist or is not a directory, each
externally invocable path-taking operation (analyze, detect, generate)
returns a structured failure — success `false` with the error string naming
the invalid path — and, being a total function of its environment, lets no
exception reach the transport; the generate tool also leaves the output file
untouched. -/
theorem claim_C5_invalid_path_structured_failure :
    ∀ (path : String) (fs : FS) (ofn : String) (crp : Option String) (vb : Bool)
      (pto : Option String) (env : GenEnv),
      fs.isDir = false →
      ((analyze_project_tool path fs).success = false ∧
        (analyze_project_tool path fs).error = some (invalidPathMsg path)) ∧
      ((detect_technology_tool path fs).success = false ∧
        (detect_technology_tool path fs).error = some (invalidPathMsg path)) ∧
      ((generate_rules_tool path fs ofn crp vb pto env).1.success = false ∧
        (generate_rules_tool path fs ofn crp vb pto env).1.error
          = some (invalidPathMsg path) ∧
        (generate_rules_tool path fs ofn crp vb pto env).2 = env.prior) ∧
      pyIn path (invalidPathMsg path) = true := by
  intro path fs ofn crp vb pto env h
  refine ⟨⟨?_, ?_⟩, ⟨?_, ?_⟩, ⟨?_, ?_, ?_⟩, ?_⟩
  · simp [analyze_project_tool, h]
  · simp [analyze_project_tool, h]
  · simp [detect_technology_tool, h]
  · simp [detect_technology_tool, h]
  · simp [generate_rules_tool, h]
  · simp [generate_rules_tool, h]
  · simp [generate_rules_tool, h]
  · exact pyIn_surround path "La ruta '" "' no existe o no es un directorio"

/-- Witness for C5 at a concrete invalid path. -/
theorem claim_C5_witness :
    (analyze_project_tool "/missing" badFS).success = false ∧
    (detect_technology_tool "/missing" badFS).error = some (invalidPathMsg "/missing") ∧
    (generate_rules_tool "/missing" badFS "rules" none false none env0).1.success = false ∧
    pyIn "/missing" (invalidPathMsg "/missing") = true :=
  have h := claim_C5_invalid_path_structured_failure "/missing" badFS "rules" none false
    none env0 rfl
  ⟨h.1.1, h.2.1.2, h.2.2.1.1, h.2.2.2⟩

/-- Truthiness of `d.get(k)` is untouched by an assignment to a different
key. -/
theorem dtruthy_dset_ne (d : Attrs) (k k2 : String) (v : Val) (hne : k ≠ k2) :
    dtruthy (dset d k v) k2 = dtruthy d k2 := by
  unfold dtruthy
  rw [dget_dset_ne d k k2 v hne]

/-- C10.  Whenever `check_python` returns the `python` category, the
attribute dict carries `security_priority`, whose value is exactly `high`
when `debug_enabled` is truthy, else `medium` when `hardcoded_secret_key` or
`risky_packages` is truthy, else `low` — in particular never `critical`. -/
theorem claim_C10_python_security_priority :
    ∀ (fs : FS) (d : Attrs), check_python fs = .ok (some "python", d) →
      dget d "security_priority" =
        some (.vS (if dtruthy d "debug_enabled" then "high"
          else if dtruthy d "hardcoded_secret_key" || dtruthy d "risky_packages" then
            "medium"
          else "low")) ∧
      dget d "security_priority" ≠ some (.vS "critical") := by
  intro fs d h
  unfold check_python at h
  dsimp only at h
  split at h
  · simp at h
  · rw [Except.ok.injEq, Prod.mk.injEq] at h
    obtain ⟨-, h2⟩ := h
    subst h2
    rw [dget_dset_self]
    have hd : dtruthy (dset (pythonGather fs (pythonIndicators.filter (fsHasIndicator fs)))
        "security_priority" (.vS (pythonSecurityPriority
          (pythonGather fs (pythonIndicators.filter (fsHasIndicator fs))))))
        "debug_enabled"
        = dtruthy (pythonGather fs (pythonIndicators.filter (fsHasIndicator fs)))
          "debug_enabled" :=
      dtruthy_dset_ne _ _ _ _ (by decide)
    have hs : dtruthy (dset (pythonGather fs (pythonIndicators.filter (fsHasIndicator fs)))
        "security_priority" (.vS (pythonSecurityPriority
          (pythonGather fs (pythonIndicators.filter (fsHasIndicator fs))))))
        "hardcoded_secret_key"
        = dtruthy (pythonGather fs (pythonIndicators.filter (fsHasIndicator fs)))
          "hardcoded_secret_key" :=
      dtruthy_dset_ne _ _ _ _ (by decide)
    have hr : dtruthy (dset (pythonGather fs (pythonIndicators.filter (fsHasIndicator fs)))
        "security_priority" (.vS (pythonSecurityPriority
          (pythonGather fs (pythonIndicators.filter (fsHasIndicator fs))))))
        "risky_packages"
        = dtruthy (pythonGather fs (pythonIndicators.filter (fsHasIndicator fs)))
          "risky_packages" :=
      dtruthy_dset_ne _ _ _ _ (by decide)
    rw [hd, hs, hr]
    unfold pythonSecurityPriority
    constructor
    · rfl
    · split
      · simp
      · split
        · simp
        · simp

/-- A project directory holding only a small requirements.txt: the Python
probe matches with no risk findings. -/
def fsPy : FS := { emptyFS with requirementsTxt := some (some "flask==2.0.1") }

/-- The details dict `check_python` produces on `fsPy`. -/
def pyDetails : Attrs :=
  match check_python fsPy with
  | .ok (_, d) => d
  | .error _ => []

/-- Witness for C10 at the concrete `fsPy` project. -/
theorem claim_C10_witness :
    dget pyDetails "security_priority" =
      some (.vS (if dtruthy pyDetails "debug_enabled" then "high"
        else if dtruthy pyDetails "hardcoded_secret_key"
            || dtruthy pyDetails "risky_packages" then "medium"
        else "low")) ∧
    dget pyDetails "security_priority" ≠ some (.vS "critical") :=
  claim_C10_python_security_priority fsPy pyDetails (by rfl)

/-- Every subprocess call a venv candidate makes carries timeout 5. -/
theorem tryVenvCandidate_trace_five (fs : FS) (name : String) :
    ∀ p ∈ (tryVenvCandidate fs name).2, p.2 = 5 := by
  unfold tryVenvCandidate
  dsimp only
  split
  · split
    · split
      · split
        · intro p hp; simp at hp; simp [hp]
        · intro p hp; simp at hp; simp [hp]
      · intro p hp; simp at hp; simp [hp]
    · intro p hp; simp at hp; simp [hp]
    · intro p hp; simp at hp; simp [hp]
  · intro p hp; simp at hp

/-- Every subprocess call a system-command attempt makes carries timeout 5. -/
theorem trySystemCmd_trace_five (fs : FS) (d : Attrs) (cmd : String) :
    ∀ p ∈ (trySystemCmd fs d cmd).2, p.2 = 5 := by
  unfold trySystemCmd
  dsimp only
  repeat' split
  all_goals intro p hp
  all_goals simp only [List.mem_cons, List.not_mem_nil, or_false] at hp
  all_goals first
    | (subst hp; rfl)
    | (rcases hp with rfl | rfl <;> rfl)

/-- The venv fold preserves the all-timeouts-are-5 invariant of the trace. -/
theorem foldl_venv_trace_five (fs : FS) (names : List String) :
    ∀ acc : Option Attrs × CallTrace, (∀ p ∈ acc.2, p.2 = 5) →
      ∀ p ∈ (names.foldl (venvStep fs) acc).2, p.2 = 5 := by
  induction names with
  | nil => intro acc h; simpa using h
  | cons nm rest ih =>
    intro acc h
    simp only [List.foldl_cons]
    apply ih
    unfold venvStep
    obtain ⟨o, tr⟩ := acc
    cases o with
    | some d => exact h
    | none =>
      intro p hp
      simp only [List.mem_append] at hp
      rcases hp with hp | hp
      · exact h p hp
      · exact tryVenvCandidate_trace_five fs nm p hp

/-- The system-command fold preserves the invariant likewise. -/
theorem foldl_sys_trace_five (fs : FS) (dLeft : Attrs) (cmds : List String) :
    ∀ acc : Option Attrs × CallTrace, (∀ p ∈ acc.2, p.2 = 5) →
      ∀ p ∈ (cmds.foldl (sysStep fs dLeft) acc).2, p.2 = 5 := by
  induction cmds with
  | nil => intro acc h; simpa using h
  | cons cmd rest ih =>
    intro acc h
    simp only [List.foldl_cons]
    apply ih
    unfold sysStep
    obtain ⟨o, tr⟩ := acc
    cases o with
    | some d => exact h
    | none =>
      intro p hp
      simp only [List.mem_append] at hp
      rcases hp with hp | hp
      · exact h p hp
      · exact trySystemCmd_trace_five fs dLeft cmd p hp

/-- When every subprocess invocation times out, a venv candidate yields no
details. -/
theorem tryVenvCandidate_timeout (fs : FS) (name : String)
    (hrun : ∀ cmd t, fs.pyEnv.run cmd t = .timeout) :
    (tryVenvCandidate fs name).1 = none := by
  unfold tryVenvCandidate
  dsimp only
  split
  · rw [hrun]
  · rfl

/-- When every subprocess invocation times out, a system command yields no
details. -/
theorem trySystemCmd_timeout (fs : FS) (d : Attrs) (cmd : String)
    (hrun : ∀ cmd t, fs.pyEnv.run cmd t = .timeout) :
    (trySystemCmd fs d cmd).1 = none := by
  unfold trySystemCmd
  dsimp only
  rw [hrun]

/-- The venv fold keeps a `none` result when every candidate yields none. -/
theorem foldl_venv_none (fs : FS)
    (h : ∀ name, (tryVenvCandidate fs name).1 = none) :
    ∀ (names : List String) (tr : CallTrace),
      (names.foldl (venvStep fs) (none, tr)).1 = none := by
  intro names
  induction names with
  | nil => intro tr; rfl
  | cons nm rest ih =>
    intro tr
    simp only [List.foldl_cons]
    have hstep : venvStep fs (none, tr) nm
        = ((tryVenvCandidate fs nm).1, tr ++ (tryVenvCandidate fs nm).2) := rfl
    rw [hstep, h nm]
    exact ih _

/-- The system fold likewise. -/
theorem foldl_sys_none (fs : FS) (dLeft : Attrs)
    (h : ∀ cmd, (trySystemCmd fs dLeft cmd).1 = none) :
    ∀ (cmds : List String) (tr : CallTrace),
      (cmds.foldl (sysStep fs dLeft) (none, tr)).1 = none := by
  intro cmds
  induction cmds with
  | nil => intro tr; rfl
  | cons cmd rest ih =>
    intro tr
    simp only [List.foldl_cons]
    have hstep : sysStep fs dLeft (none, tr) cmd
        = ((trySystemCmd fs dLeft cmd).1, tr ++ (trySystemCmd fs dLeft cmd).2) := rfl
    rw [hstep, h cmd]
    exact ih _

/-- C6.  Every subprocess invocation `detect_python_version` performs — venv
probe, system interpreter probe, binary locator — passes the hard timeout 5;
when every invocation times out and no version-pinning configuration file
exists, the probe completes with an empty details dict (no Python version is
reported) instead of hanging or failing; and a timeout of the `which` locator
call alone — even after `<cmd> --version` succeeded with parsable output —
aborts that command's iteration with no details, the enclosing `try` falling
to the next command. -/
theorem claim_C6_subprocess_timeout_five :
    (∀ fs : FS, ∀ p ∈ (detect_python_version fs).2, p.2 = 5) ∧
    (∀ fs : FS, (∀ cmd t, fs.pyEnv.run cmd t = .timeout) →
      fs.pythonVersionFile = none → fs.pyprojectToml = none →
      fs.pipfileFile = none → fs.setupPyFile = none →
      (detect_python_version fs).1 = []) ∧
    (∀ (fs : FS) (d : Attrs) (cmd : String),
      fs.pyEnv.run ["which", cmd] 5 = .timeout →
      (trySystemCmd fs d cmd).1 = none) := by
  refine ⟨?_, ?_, ?_⟩
  · intro fs
    unfold detect_python_version
    have h0 := foldl_venv_trace_five fs [".venv", "venv", "env", ".env"]
      ((none : Option Attrs), ([] : CallTrace)) (by simp)
    rcases hfold : [".venv", "venv", "env", ".env"].foldl (venvStep fs)
        ((none : Option Attrs), ([] : CallTrace)) with ⟨vres, tr0⟩
    rw [hfold] at h0
    simp only [hfold]
    have htr0 : ∀ p ∈ tr0, p.2 = 5 := h0
    cases vres with
    | some d => exact htr0
    | none =>
      cases hpy : pyenvPhase fs [] with
      | some d => exact htr0
      | none =>
        cases hpp : pyprojectPhase fs [] with
        | some d => exact htr0
        | none =>
          rcases hpip : pipfilePhase fs [] with ⟨dLeft, pipRes⟩
          cases pipRes with
          | some d => exact htr0
          | none =>
            cases hsu : setupPyPhase fs dLeft with
            | some d => exact htr0
            | none =>
              have h1 := foldl_sys_trace_five fs dLeft ["python3", "python"]
                ((none : Option Attrs), tr0) htr0
              rcases hsf : ["python3", "python"].foldl (sysStep fs dLeft)
                  ((none : Option Attrs), tr0) with ⟨sres, tr1⟩
              rw [hsf] at h1
              simp only [hsf]
              cases sres with
              | some d => exact h1
              | none => exact h1
  · intro fs hrun hpv hpp hpip hsu
    unfold detect_python_version
    have hv := foldl_venv_none fs (fun name => tryVenvCandidate_timeout fs name hrun)
      [".venv", "venv", "env", ".env"] []
    rcases hfold : [".venv", "venv", "env", ".env"].foldl (venvStep fs)
        ((none : Option Attrs), ([] : CallTrace)) with ⟨vres, tr0⟩
    rw [hfold] at hv
    simp only at hv
    subst hv
    simp only [hfold]
    have h1 : pyenvPhase fs [] = none := by unfold pyenvPhase; rw [hpv]
    have h2 : pyprojectPhase fs [] = none := by unfold pyprojectPhase; rw [hpp]
    have h3 : pipfilePhase fs [] = ([], none) := by unfold pipfilePhase; rw [hpip]
    have h4 : setupPyPhase fs [] = none := by unfold setupPyPhase; rw [hsu]
    rw [h1, h2, h3]
    simp only
    rw [h4]
    have hs := foldl_sys_none fs []
      (fun cmd => trySystemCmd_timeout fs [] cmd hrun) ["python3", "python"] tr0
    rcases hsf : ["python3", "python"].foldl (sysStep fs [])
        ((none : Option Attrs), tr0) with ⟨sres, tr1⟩
    rw [hsf] at hs
    simp only at hs
    subst hs
    simp only [hsf]
  · intro fs d cmd hw
    unfold trySystemCmd
    dsimp only
    repeat' split
    all_goals first | rfl | rw [hw] | simp_all

/-- A project whose virtual-environment binaries exist but hang: every
subprocess run times out. -/
def fsTimeout : FS :=
  { emptyFS with pyEnv := { venvPython := fun _ => true, run := fun _ _ => .timeout } }

/-- A filesystem where every `--version` call succeeds with parsable output
but the `which` locator call times out. -/
def fsWhichTimeout : FS :=
  { emptyFS with
    pyEnv :=
      { venvPython := fun _ => false,
        run := fun args _ =>
          if args.headI == "which" then .timeout
          else .ok 0 "Python 3.11.4" "" } }

/-- Witness for C6: on the all-timeout filesystem the probe reports nothing
and its (non-empty) invocation trace carries timeout 5 everywhere; and on the
which-timeout filesystem a system-command attempt yields no details even
though the version call succeeded. -/
theorem claim_C6_witness :
    (detect_python_version fsTimeout).1 = [] ∧
    (∀ p ∈ (detect_python_version fsTimeout).2, p.2 = 5) ∧
    (trySystemCmd fsWhichTimeout [] "python3").1 = none :=
  ⟨claim_C6_subprocess_timeout_five.2.1 fsTimeout (fun _ _ => rfl) rfl rfl rfl rfl,
   claim_C6_subprocess_timeout_five.1 fsTimeout,
   claim_C6_subprocess_timeout_five.2.2 fsWhichTimeout [] "python3" rfl⟩

/-- `dget_dset_ne` with a boolean disequality, convenient for `simp`. -/
theorem dget_dset_ne' (d : Attrs) (k k2 : String) (v : Val) (h : (k == k2) = false) :
    dget (dset d k v) k2 = dget d k2 :=
  dget_dset_ne d k k2 v (by simpa using h)

/-- The attribute keys the starter-branch dependency loop of
`check_spring_boot` can write. -/
def sbDepKeys : List String :=
  ["uses_spring_security", "uses_spring_data_jpa", "uses_actuator", "uses_webflux",
   "uses_spring_cloud", "database_mysql", "database_postgresql", "database_h2",
   "h2_console_risk"]

set_option maxHeartbeats 1600000 in
/-- A non-raising dependency step of the starter branch leaves every key
outside `sbDepKeys` untouched. -/
theorem sbDepStep_ok_preserve (d : Attrs) (dep : PomDep) (d2 : Attrs) (k : String)
    (h : sbDepStep d dep = .ok d2) (hk : k ∉ sbDepKeys) : dget d2 k = dget d k := by
  simp only [sbDepKeys, List.mem_cons, List.not_mem_nil, or_false, not_or] at hk
  obtain ⟨n1, n2, n3, n4, n5, n6, n7, n8, n9⟩ := hk
  have b1 : ("uses_spring_security" == k) = false := beq_eq_false_iff_ne.mpr (fun he => n1 he.symm)
  have b2 : ("uses_spring_data_jpa" == k) = false := beq_eq_false_iff_ne.mpr (fun he => n2 he.symm)
  have b3 : ("uses_actuator" == k) = false := beq_eq_false_iff_ne.mpr (fun he => n3 he.symm)
  have b4 : ("uses_webflux" == k) = false := beq_eq_false_iff_ne.mpr (fun he => n4 he.symm)
  have b5 : ("uses_spring_cloud" == k) = false := beq_eq_false_iff_ne.mpr (fun he => n5 he.symm)
  have b6 : ("database_mysql" == k) = false := beq_eq_false_iff_ne.mpr (fun he => n6 he.symm)
  have b7 : ("database_postgresql" == k) = false := beq_eq_false_iff_ne.mpr (fun he => n7 he.symm)
  have b8 : ("database_h2" == k) = false := beq_eq_false_iff_ne.mpr (fun he => n8 he.symm)
  have b9 : ("h2_console_risk" == k) = false := beq_eq_false_iff_ne.mpr (fun he => n9 he.symm)
  obtain ⟨g, a, vv⟩ := dep
  unfold sbDepStep at h
  rcases g with _ | gt
  · injection h with h2; subst h2; rfl
  · rcases a with _ | at_
    · injection h with h2; subst h2; rfl
    · repeat' split at h
      all_goals first
        | (exact Except.noConfusion h)
        | (injection h with h2; subst h2;
           simp [dget_dset_ne', b1, b2, b3, b4, b5, b6, b7, b8, b9])

/-- A dependency whose artifact element carries text never raises in the
starter-branch loop. -/
theorem sbDepStep_ok_of (d : Attrs) (dep : PomDep) (hdep : dep.artifactId ≠ some none) :
    ∃ d2, sbDepStep d dep = .ok d2 := by
  obtain ⟨g, a, vv⟩ := dep
  unfold sbDepStep
  rcases g with _ | gt
  · exact ⟨d, rfl⟩
  · rcases a with _ | at_
    · exact ⟨d, rfl⟩
    · rcases at_ with _ | s
      · exact absurd rfl hdep
      · dsimp only
        repeat' split
        all_goals exact ⟨_, rfl⟩

/-- On a dependency list free of empty artifact elements, the starter-branch
loop completes without raising and leaves every key outside `sbDepKeys`
untouched. -/
theorem sbDepScan_ok : ∀ (deps : List PomDep) (d : Attrs),
    (∀ dep ∈ deps, dep.artifactId ≠ some none) →
    (sbDepScan d deps).2 = false ∧
    (∀ k, k ∉ sbDepKeys → dget (sbDepScan d deps).1 k = dget d k) := by
  intro deps
  induction deps with
  | nil => exact fun d _ => ⟨rfl, fun k _ => rfl⟩
  | cons dep rest ih =>
    intro d h
    obtain ⟨d2, hstep⟩ := sbDepStep_ok_of d dep (h dep (by simp))
    have hrest : ∀ x ∈ rest, x.artifactId ≠ some none := fun x hx => h x (by simp [hx])
    unfold sbDepScan
    rw [hstep]
    obtain ⟨ih1, ih2⟩ := ih d2 hrest
    exact ⟨ih1, fun k hk => by
      rw [ih2 k hk, sbDepStep_ok_preserve d dep d2 k hstep hk]⟩

/-- The facts C3 needs about the starter-version details: the declared string
is stored verbatim, and a successful first-digit-run extraction stores the
major version. -/
theorem sbStarterDetails_facts (v : String) :
    dget (sbStarterDetails v) "spring_boot_version" = some (.vS v) ∧
    (∀ m, searchFirstNat v = some m →
      dget (sbStarterDetails v) "spring_boot_major_version" = some (.vN (m : Int))) := by
  unfold sbStarterDetails
  rcases hsv : searchFirstNat v with _ | mj
  · dsimp only
    refine ⟨dget_dset_self _ _ _, fun m hm => ?_⟩
    cases hm
  · dsimp only
    constructor
    · split
      · simp +decide [dget_dset_ne', dget_dset_self]
      · split
        · simp +decide [dget_dset_ne', dget_dset_self]
        · split
          · simp +decide [dget_dset_ne', dget_dset_self]
          · simp +decide [dget_dset_ne', dget_dset_self]
    · intro m hm
      injection hm with hmm
      subst hmm
      split
      · simp +decide [dget_dset_ne', dget_dset_self]
      · split
        · simp +decide [dget_dset_ne', dget_dset_self]
        · split
          · simp +decide [dget_dset_ne', dget_dset_self]
          · simp +decide [dget_dset_ne', dget_dset_self]

/-- C3.  A pom.xml declaring the `spring-boot-starter-parent` parent with a
version string (well-formed: the pom parses and no dependency has an empty
artifact element) makes detection return category `springboot` with the
declared string as the `spring_boot_version` attribute; the major version is
the tolerant first-digit-run extraction of that string; `"2.7.5"` yields
major 2, and `"1.4.2"` yields `is_legacy` and `security_priority = "high"`. -/
theorem claim_C3_spring_boot_version_detection :
    ∀ (fs : FS) (pom : Pom) (parent : PomParent) (v : String),
      fs.isDir = true →
      fs.pom = some (.ok pom) →
      pom.parent = some parent →
      parent.artifactId = some (some "spring-boot-starter-parent") →
      parent.version = some (some v) →
      (∀ dep ∈ pom.dependencies.getD [], dep.artifactId ≠ some none) →
      ∃ d, check_spring_boot fs = .ok (some "springboot", d) ∧
        analyze_project fs = (some "springboot", d) ∧
        dget d "spring_boot_version" = some (.vS v) ∧
        (∀ m, searchFirstNat v = some m →
          dget d "spring_boot_major_version" = some (.vN (m : Int))) ∧
        (v = "2.7.5" → dget d "spring_boot_major_version" = some (.vN 2)) ∧
        (v = "1.4.2" → dget d "is_legacy" = some (.vB true) ∧
          dget d "security_priority" = some (.vS "high")) := by
  intro fs pom parent v hdir hpom hparent hartifact hversion hdeps
  have hphase : sbPomPhase pom = sbStarterFinish pom (sbStarterDetails v) := by
    unfold sbPomPhase
    rw [hparent]
    dsimp only
    rw [hartifact, hversion]
    simp
  have hfin : ∃ d, sbStarterFinish pom (sbStarterDetails v) = .ret (some "springboot", d) ∧
      (∀ k, k ∉ sbDepKeys → dget d k = dget (sbStarterDetails v) k) := by
    unfold sbStarterFinish
    cases hdp : pom.dependencies with
    | none => exact ⟨sbStarterDetails v, rfl, fun k _ => rfl⟩
    | some deps =>
      have hdeps2 : ∀ dep ∈ deps, dep.artifactId ≠ some none := by
        intro dep hmem
        exact hdeps dep (by rw [hdp]; simpa using hmem)
      obtain ⟨hfalse, hpres⟩ := sbDepScan_ok deps (sbStarterDetails v) hdeps2
      refine ⟨(sbDepScan (sbStarterDetails v) deps).1, ?_, hpres⟩
      rcases hscan : sbDepScan (sbStarterDetails v) deps with ⟨d2, raised⟩
      rw [hscan] at hfalse
      simp only at hfalse
      subst hfalse
      simp [hscan]
  obtain ⟨d, hret, hpres⟩ := hfin
  have hcheck : check_spring_boot fs = .ok (some "springboot", d) := by
    unfold check_spring_boot
    rw [hpom]
    dsimp only
    rw [hphase, hret]
  have hanalyze : analyze_project fs = (some "springboot", d) := by
    unfold analyze_project
    rw [hdir]
    simp only [if_true, PROJECT_CHECKERS, List.map]
    rw [hcheck]
    rfl
  have hsv := (sbStarterDetails_facts v).1
  have hsm := (sbStarterDetails_facts v).2
  refine ⟨d, hcheck, hanalyze, ?_, ?_, ?_, ?_⟩
  · rw [hpres "spring_boot_version" (by decide), hsv]
  · intro m hm
    rw [hpres "spring_boot_major_version" (by decide)]
    exact hsm m hm
  · intro hv
    subst hv
    rw [hpres "spring_boot_major_version" (by decide)]
    exact hsm 2 (by rfl)
  · intro hv
    subst hv
    constructor
    · rw [hpres "is_legacy" (by decide)]
      decide
    · rw [hpres "security_priority" (by decide)]
      decide

/-- The pom of a Spring Boot 1.4.2 starter project. -/
def pomSB : Pom :=
  { parent := some { artifactId := some (some "spring-boot-starter-parent"),
                     version := some (some "1.4.2") },
    dependencies := none, properties := none }

/-- A project directory holding only that pom. -/
def fsSB : FS := { emptyFS with pom := some (.ok pomSB) }

/-- Witness for C3 at the `"1.4.2"` starter pom. -/
theorem claim_C3_witness :
    ∃ d, check_spring_boot fsSB = .ok (some "springboot", d) ∧
      analyze_project fsSB = (some "springboot", d) ∧
      dget d "spring_boot_version" = some (.vS "1.4.2") ∧
      (∀ m, searchFirstNat "1.4.2" = some m →
        dget d "spring_boot_major_version" = some (.vN (m : Int))) ∧
      ("1.4.2" = "2.7.5" → dget d "spring_boot_major_version" = some (.vN 2)) ∧
      ("1.4.2" = "1.4.2" → dget d "is_legacy" = some (.vB true) ∧
        dget d "security_priority" = some (.vS "high")) :=
  claim_C3_spring_boot_version_detection fsSB pomSB
    { artifactId := some (some "spring-boot-starter-parent"),
      version := some (some "1.4.2") } "1.4.2"
    rfl rfl rfl rfl rfl (by simp [pomSB])

/-- C7 evidence.  When the resolved category has no template — an unknown
type, or a known type whose template file is missing from the store — the
generate operation does NOT return a structured failure: `RuleSet.generate`
degrades to an empty document, the `if not final_rules` guard in
`generate_rules_tool` never fires (the rules dict is always truthy), and the
call succeeds, writing an empty rules file. -/
theorem claim_C7_missing_template_succeeds :
    ((generate_rules_tool "/proj" emptyFS "rules" none false (some "unknown_type")
        env0).1.success = true ∧
      (generate_rules_tool "/proj" emptyFS "rules" none false (some "unknown_type")
        env0).2 = some "" ∧
      (generate_rules_tool "/proj" emptyFS "rules" none false (some "unknown_type")
        env0).1.output_file = some "/proj/.cursor/rules/rules.mdc") ∧
    ((generate_rules_tool "/proj" emptyFS "rules" none false (some "springboot")
        env0).1.success = true ∧
      (generate_rules_tool "/proj" emptyFS "rules" none false (some "springboot")
        env0).2 = some "") :=
  ⟨⟨rfl, rfl, rfl⟩, ⟨rfl, rfl⟩⟩

/-- The template store of the generation fixtures: only `python.mdc` exists. -/
def tmplStore : String → Option MdcData := fun fn =>
  if fn == "python.mdc" then
    some { frontmatter := some "description: base", content := "# base rules" }
  else none

/-- An environment where the custom rules file exists and loads. -/
def envWithCustom : GenEnv :=
  { customExists := true, customLoad := some { frontmatter := none, content := "EXTRA" },
    templates := tmplStore, writeOutcome := .wOk, prior := none }

/-- The same environment without any custom rules file. -/
def envNoCustom : GenEnv :=
  { customExists := false, customLoad := none,
    templates := tmplStore, writeOutcome := .wOk, prior := none }

/-- C8 evidence.  The caller-supplied custom content never reaches the
generated document: `generate_rules` is insensitive to its
`custom_rules_data` argument (the `RuleSet` stores and ignores it — the merge
is an unimplemented TODO), so a Generate call with an existing custom-content
file writes a document byte-identical to the one written without it. -/
theorem claim_C8_custom_rules_ignored :
    (∀ (pt : String) (dt : Attrs) (c : String) (vb : Bool)
        (tmpl : String → Option MdcData),
      generate_rules pt dt (some c) vb tmpl = generate_rules pt dt none vb tmpl) ∧
    ((generate_rules_tool "/proj" emptyFS "rules" (some "/custom.mdc") false
        (some "python") envWithCustom).2
      = (generate_rules_tool "/proj" emptyFS "rules" none false
        (some "python") envNoCustom).2) ∧
    (generate_rules_tool "/proj" emptyFS "rules" (some "/custom.mdc") false
      (some "python") envWithCustom).1.success = true := by
  refine ⟨?_, rfl, rfl⟩
  intro pt dt c vb tmpl
  unfold generate_rules
  rfl

/-- An environment whose write fails after three characters were written. -/
def envFailWrite : GenEnv :=
  { customExists := false, customLoad := none,
    templates := tmplStore, writeOutcome := .wFailAfter 3, prior := none }

/-- C9 counterexample.  The write is not all-or-nothing: a failure after 3
characters leaves `"---"` — a non-empty strict prefix of the serialised
document — on disk at the output path, while the operation reports the
structured failure.  This refutes the claim that no partial output file is
left behind on write failure. -/
theorem claim_C9_counterexample :
    (generate_rules_tool "/proj" emptyFS "rules" none false (some "python")
      envFailWrite).1.success = false ∧
    (generate_rules_tool "/proj" emptyFS "rules" none false (some "python")
      envFailWrite).1.error
      = some "No se pudo escribir el archivo en: /proj/.cursor/rules/rules.mdc" ∧
    (generate_rules_tool "/proj" emptyFS "rules" none false (some "python")
      envFailWrite).2 = some "---" ∧
    some "---" ≠ (none : Option String) ∧
    ("---" : String) ≠ "" ∧
    ("---" : String)
      ≠ mdcSerialize { frontmatter := some "description: base", content := "# base rules" } :=
  ⟨rfl, rfl, rfl, by decide, by decide, by decide⟩

set_option maxHeartbeats 3200000 in
/-- C9 amended.  On a write failure the operation reports a structured
failure (success is false); the on-disk outcome is either the untouched prior
state (when the failure struck before the write step, or the directory/open
failed) or — because opening with `'w'` truncates and writing is sequential —
the first `k` characters of the serialised document: a partial file can
remain, and when it does the error names the attempted output path. -/
theorem claim_C9_write_failure_amended :
    ∀ (path : String) (fs : FS) (ofn : String) (crp : Option String) (vb : Bool)
      (pto : Option String) (env : GenEnv) (k : Nat),
      env.writeOutcome = .wFailAfter k →
      (generate_rules_tool path fs ofn crp vb pto env).1.success = false ∧
      ((generate_rules_tool path fs ofn crp vb pto env).2 = env.prior ∨
        ∃ doc : MdcData,
          (generate_rules_tool path fs ofn crp vb pto env).1.error =
            some ("No se pudo escribir el archivo en: "
              ++ pyJoin (pyJoin (pyJoin path ".cursor") "rules")
                   (if pyEndsWith ofn ".mdc" then ofn else ofn ++ ".mdc")) ∧
          (generate_rules_tool path fs ofn crp vb pto env).2 =
            some (String.mk ((mdcSerialize doc).toList.take k))) := by
  intro path fs ofn crp vb pto env k henv
  unfold generate_rules_tool
  rw [henv]
  unfold save_mdc_file
  rcases crp with _ | p
  · dsimp only
    repeat' split
    all_goals first
      | exact ⟨rfl, Or.inl rfl⟩
      | exact ⟨rfl, Or.inr ⟨_, rfl, rfl⟩⟩
      | simp_all
  · rcases hpe : p.isEmpty with _ | _ <;>
      rcases hce : env.customExists with _ | _ <;>
        rcases hcl : env.customLoad with _ | data <;>
          simp only [hpe, hce, hcl]
    all_goals try dsimp only
    all_goals repeat' split
    all_goals try simp_all only [Bool.not_false, Bool.not_true, Bool.false_eq_true,
      Bool.true_eq_false, if_true, if_false, reduceIte,
      Except.error.injEq, Except.ok.injEq]
    all_goals try subst_vars
    all_goals first
      | exact ⟨rfl, Or.inl rfl⟩
      | exact ⟨rfl, Or.inl trivial⟩
      | exact ⟨rfl, Or.inr ⟨_, rfl, rfl⟩⟩
      | exact ⟨rfl, Or.inr ⟨_, rfl, trivial⟩⟩
      | rfl
      | exact Or.inl rfl
      | exact Or.inr ⟨_, rfl, rfl⟩
      | exact Or.inr ⟨_, rfl⟩
      | exact ⟨rfl, Or.inr ⟨_, rfl⟩⟩
      | (simp_all
         all_goals first
           | exact Or.inl rfl
           | exact Or.inr ⟨_, rfl⟩
           | exact Or.inr ⟨_, rfl, rfl⟩
           | exact ⟨rfl, Or.inr ⟨_, rfl⟩⟩
           | rfl
           | trivial)

/-- Witness for the amended C9 at the concrete failing environment. -/
theorem claim_C9_witness :
    (generate_rules_tool "/proj" emptyFS "rules" none false (some "python")
      envFailWrite).1.success = false ∧
    ((generate_rules_tool "/proj" emptyFS "rules" none false (some "python")
      envFailWrite).2 = envFailWrite.prior ∨
      ∃ doc : MdcData,
        (generate_rules_tool "/proj" emptyFS "rules" none false (some "python")
          envFailWrite).1.error =
          some ("No se pudo escribir el archivo en: "
            ++ pyJoin (pyJoin (pyJoin "/proj" ".cursor") "rules")
                 (if pyEndsWith "rules" ".mdc" then "rules"
                  else "rules" ++ ".mdc")) ∧
        (generate_rules_tool "/proj" emptyFS "rules" none false (some "python")
          envFailWrite).2 = some (String.mk ((mdcSerialize doc).toList.take 3))) :=
  claim_C9_write_failure_amended "/proj" emptyFS "rules" none false (some "python")
    envFailWrite 3 rfl

end RuleForge
